import Mathlib

set_option linter.unusedVariables false

/-!
Verification development for the mcp-x repository.

Shallow embedding of the command bridge and header-injection middleware found in
`src/python_bridge/twikit_service.py`, `src/mcp-x-server/utils/client_patcher.py`
and `src/mcp-x-server/service/x_service.py`.

Modelling conventions:
* Python `dict[str, str]` values (header maps, argument maps) are association
  lists with dict-style get/set; keys are unique in any dict that the Python
  runtime produces, which appears as a `Nodup` hypothesis where it matters.
* JSON scalar argument values are modelled as strings; the `tweetIds` array
  argument is modelled as one opaque string (its structure is never inspected
  by the bridge code itself).
* The external PlatformClient (twikit) is an opaque collaborator: each client
  method is a field of `StubClient` returning `Except String` fallible results,
  and every invocation is recorded in a `Call` trace so that "no network call
  was attempted" is expressible.
* The opaque TransactionSigner is a function `String → String → Except String
  String` (method and path in, token or failure out); invocations of it are
  recorded in the same trace via `Call.sign`.
-/

/-- Association-list model of a Python `dict` with string keys and values. -/
abbrev Headers := List (String × String)

/-- Model of Python dict lookup `d.get(k)` (`none` when the key is absent). -/
def hget : Headers → String → Option String
  | [], _ => none
  | (k', v') :: rest, k => if k' = k then some v' else hget rest k

/-- Model of Python dict assignment `d[k] = v`: replaces the existing binding
for `k` if present, otherwise appends the new binding. -/
def hset : Headers → String → String → Headers
  | [], k, v => [(k, v)]
  | (k', v') :: rest, k, v =>
    if k' = k then (k, v) :: rest else (k', v') :: hset rest k v

/-- Model of Python `str.lower()` on header names (ASCII case folding). -/
def strLower (s : String) : String := String.mk (s.data.map Char.toLower)

/-- Model of Python `str.upper()` on HTTP methods (ASCII case folding). -/
def strUpper (s : String) : String := String.mk (s.data.map Char.toUpper)

/-- One iteration of the header-merge loop shared verbatim by
`twikit_service.patched_http_client_request` (lines 46-50) and
`ClientPatcher.patched_http_client_request` (lines 129-133):
a caller key whose lower-casing is `content-type` always overwrites,
any other caller key is added only when not already present. -/
def mergeStep (acc : Headers) (kv : String × String) : Headers :=
  if strLower kv.1 = "content-type" then hset acc kv.1 kv.2
  else if (hget acc kv.1).isSome then acc
  else hset acc kv.1 kv.2

/-- The full header merge of both patched transports: start from the injected
baseline (`HEADERS_TO_INJECT.copy()`) and fold the caller's headers through
`mergeStep` in iteration order. -/
def mergeHeaders (baseline caller : Headers) : Headers :=
  caller.foldl mergeStep baseline

/-- Characters of `s` strictly before the first occurrence of `stop`. -/
def takeUntilChar : List Char → Char → List Char
  | [], _ => []
  | c :: cs, stop => if c = stop then [] else c :: takeUntilChar cs stop

/-- Characters after the first occurrence of the scheme separator `://`
(`none` when it does not occur). -/
def dropThroughSchemeSep : List Char → Option (List Char)
  | [] => none
  | ':' :: '/' :: '/' :: rest => some rest
  | _ :: rest => dropThroughSchemeSep rest

/-- Suffix starting at the first `/` (empty when there is none). -/
def dropUntilSlash : List Char → List Char
  | [] => []
  | c :: cs => if c = '/' then c :: cs else dropUntilSlash cs

/-- Model of Python `urllib.parse.urlparse(url).path`: the fragment is cut at
the first `#`, the query at the first `?`, and when a scheme separator is
present the authority up to the next `/` is dropped. -/
def urlPath (url : String) : String :=
  let noQuery := takeUntilChar (takeUntilChar url.data '#') '?'
  match dropThroughSchemeSep noQuery with
  | none => String.mk noQuery
  | some rest => String.mk (dropUntilSlash rest)

/-- Whether `pat` is a prefix of `s` (on character lists). -/
def charsStartWith : List Char → List Char → Bool
  | _, [] => true
  | [], _ :: _ => false
  | c :: cs, p :: ps => c = p && charsStartWith cs ps

/-- Whether `pat` occurs as a contiguous substring of `s` (on character lists). -/
def charsContainSub : List Char → List Char → Bool
  | [], pat => charsStartWith [] pat
  | c :: cs, pat => charsStartWith (c :: cs) pat || charsContainSub cs pat

/-- Model of the signed-endpoint test `'/i/api/graphql/' in url`
(`client_patcher.py` line 140): substring containment. -/
def isGraphqlUrl (url : String) : Bool :=
  charsContainSub url.data "/i/api/graphql/".data

/-- Outcome of one invocation of a patched transport: the request the real
transport was invoked with (`none` when it was never invoked), the list of
(method, path) argument pairs passed to the signer, and the propagated
failure, if any. -/
structure MWResult where
  sent : Option (String × String × Headers)
  signCalls : List (String × String)
  failed : Option String
deriving DecidableEq

/-- Model of `ClientPatcher.patched_http_client_request` (client_patcher.py
lines 111-160): merge baseline and caller headers, then, for a signed URL,
invoke the signer with the upper-cased method and the normalized path and
overwrite the transaction-token header with the fresh result; a signer failure
propagates (re-raised) and the wrapped transport is never invoked. -/
def patcherRequest (sign : String → String → Except String String)
    (baseline caller : Headers) (method url : String) : MWResult :=
  let merged := mergeHeaders baseline caller
  if isGraphqlUrl url then
    match sign (strUpper method) (urlPath url) with
    | .ok tok =>
      ⟨some (method, url, hset merged "x-client-transaction-id" tok),
        [(strUpper method, urlPath url)], none⟩
    | .error e => ⟨none, [(strUpper method, urlPath url)], some e⟩
  else ⟨some (method, url, merged), [], none⟩

/-- Model of `twikit_service.patched_http_client_request` (twikit_service.py
lines 41-52): merge baseline and caller headers and forward; this transport
performs no signing of its own for any URL. -/
def twikitBridgeRequest (baseline caller : Headers) (method url : String) :
    MWResult :=
  ⟨some (method, url, mergeHeaders baseline caller), [], none⟩

/-- JSON correlation id of a Command: Python's `command_data.get('id')` yields
`None` (serialized back as `null`), a string, or a number. -/
inductive JId where
  | jnull
  | jstr (s : String)
  | jnum (n : Int)
deriving DecidableEq

/-- Shapes of the `data` payloads constructed by the bridge's handlers:
a bare string, a list of ids, or a flat object of string fields. -/
inductive JsonVal where
  | jstr (s : String)
  | jlist (xs : List String)
  | jobj (fields : List (String × String))
deriving DecidableEq

/-- A parsed Command: correlation id, optional `action` field, and the `args`
mapping (`command_data.get('args', {})`). -/
structure Command where
  id : JId
  action : Option String
  args : Headers
deriving DecidableEq

/-- A Result line emitted by the bridge: the Python dicts
`{"id": ..., "success": True, "data": ...}` and
`{"id": ..., "success": False, "error": ...}` are modelled with optional
`data` and `error` fields (`none` = key absent from the emitted object). -/
structure Result where
  id : JId
  success : Bool
  data : Option JsonVal
  error : Option String
deriving DecidableEq

/-- A tweet object returned by the PlatformClient (only the fields the bridge
projects out). -/
structure Tweet where
  id : String
  text : String
deriving DecidableEq

/-- A user object returned by the PlatformClient (only the fields the bridge
projects out). -/
structure User where
  id : String
  screen_name : String
deriving DecidableEq

/-- Trace entry: one invocation of a PlatformClient operation (a network call)
or of the transaction signer (`Call.sign`, not a network call). -/
inductive Call where
  | sign (method : String) (path : String)
  | create_tweet (text : Option String) (mediaIds : List String) (replyTo : Option String)
  | upload_media (path : Option String)
  | create_media_metadata (mediaId : String) (altText : String)
  | favorite_tweet (tweetId : Option String)
  | unfavorite_tweet (tweetId : Option String)
  | get_user_tweets (userId : Option String) (kind : String) (count : String)
  | search_tweet (query : Option String) (mode : String) (count : String)
  | get_tweet_by_id (tweetId : Option String)
  | get_user_by_screen_name (username : Option String)
  | get_tweets_by_ids (ids : String)
  | retweet (tweetId : Option String)
  | delete_retweet (tweetId : Option String)
  | get_retweeters (tweetId : Option String) (count : String)
  | follow_user (userId : String)
  | unfollow_user (userId : String)
  | delete_tweet (tweetId : Option String)
deriving DecidableEq

/-- Opaque PlatformClient (external collaborator twikit): each operation may
fail (`Except.error` models a raised exception caught at the dispatch
boundary).  Arguments of type `Option String` record that the bridge passes
`None` through when the corresponding args key is missing. -/
structure StubClient where
  create_tweet : Option String → List String → Option String → Except String Tweet
  upload_media : Option String → Except String String
  create_media_metadata : String → String → Except String Unit
  favorite_tweet : Option String → Except String Unit
  unfavorite_tweet : Option String → Except String Unit
  get_user_tweets : Option String → String → String → Except String (List Tweet)
  search_tweet : Option String → String → String → Except String (List Tweet)
  get_tweet_by_id : Option String → Except String Tweet
  get_user_by_screen_name : Option String → Except String User
  get_tweets_by_ids : String → Except String (List Tweet)
  retweet : Option String → Except String Unit
  delete_retweet : Option String → Except String Unit
  get_retweeters : Option String → String → Except String (List User)
  follow_user : String → Except String User
  unfollow_user : String → Except String User
  delete_tweet : Option String → Except String Unit

/-- Modelled from the spec: twikit's `Endpoint` URL table belongs to the
external PlatformClient collaborator and is not under src/; these constants
stand for its GraphQL endpoint URLs referenced by the handlers.  No claim
depends on the concrete strings, only on the handlers passing
`urlPath` of them to the signer. -/
def CREATE_TWEET : String := "https://x.com/i/api/graphql/CreateTweetQID/CreateTweet"

/-- Modelled from the spec: twikit `Endpoint.FAVORITE_TWEET` (see `CREATE_TWEET`). -/
def FAVORITE_TWEET : String := "https://x.com/i/api/graphql/FavoriteTweetQID/FavoriteTweet"

/-- Modelled from the spec: twikit `Endpoint.UNFAVORITE_TWEET` (see `CREATE_TWEET`). -/
def UNFAVORITE_TWEET : String := "https://x.com/i/api/graphql/UnfavoriteTweetQID/UnfavoriteTweet"

/-- Modelled from the spec: twikit `Endpoint.RETWEET` (see `CREATE_TWEET`). -/
def RETWEET : String := "https://x.com/i/api/graphql/CreateRetweetQID/CreateRetweet"

/-- Modelled from the spec: twikit `Endpoint.DELETE_RETWEET` (see `CREATE_TWEET`). -/
def DELETE_RETWEET : String := "https://x.com/i/api/graphql/DeleteRetweetQID/DeleteRetweet"

/-- The action names of the bridge's if/elif dispatch chain
(twikit_service.py lines 161-280), in source order. -/
def registeredActions : List String :=
  ["get_transaction_id", "postTweet", "postTweetWithMedia", "likeTweet",
   "unlikeTweet", "getLikedTweets", "searchTweets", "replyToTweet",
   "getUserTimeline", "getTweetById", "getUserInfo", "getTweetsByIds",
   "retweet", "undoRetweet", "getRetweets", "followUser", "unfollowUser",
   "deleteTweet"]

/-- The actions whose success branch constructs a Result dict without a
`"data"` key (twikit_service.py lines 205, 213, 255, 261, 280). -/
def noDataActions : List String :=
  ["likeTweet", "unlikeTweet", "retweet", "undoRetweet", "deleteTweet"]

/-- The optional alt-text step of the postTweetWithMedia handler
(twikit_service.py lines 191-192): `if alt_text:` is Python truthiness, so
only a present, non-empty altText triggers the `create_media_metadata` call. -/
def metaStep (cl : StubClient) (mediaId : String) (altText : Option String) :
    Except String Unit × List Call :=
  match altText with
  | some t =>
    if t = "" then (.ok (), [])
    else (cl.create_media_metadata mediaId t, [.create_media_metadata mediaId t])
  | none => (.ok (), [])

/-- Handler body for `get_transaction_id` (twikit_service.py lines 161-172):
requires `url` and `method` args, passes the caller's method verbatim and the
normalized path to the signer, and returns the signer output verbatim. -/
def handleGetTransactionId (cl : StubClient)
    (sign : String → String → Except String String) (args : Headers) :
    Except String (Option JsonVal) × List Call :=
  match hget args "url", hget args "method" with
  | some url, some method =>
    match sign method (urlPath url) with
    | .ok tid => (.ok (some (.jstr tid)), [.sign method (urlPath url)])
    | .error e => (.error ("Failed to generate transaction ID: " ++ e),
        [.sign method (urlPath url)])
  | _, _ => (.error "Missing 'url' or 'method' for get_transaction_id action", [])

/-- Handler body for `postTweet` (twikit_service.py lines 173-181). -/
def handlePostTweet (cl : StubClient)
    (sign : String → String → Except String String) (args : Headers) :
    Except String (Option JsonVal) × List Call :=
  match hget args "text" with
  | none => (.error "Missing 'text' for postTweet", [])
  | some text =>
    match sign "POST" (urlPath CREATE_TWEET) with
    | .error e => (.error e, [.sign "POST" (urlPath CREATE_TWEET)])
    | .ok _ =>
      match cl.create_tweet (some text) [] none with
      | .error e => (.error e,
          [.sign "POST" (urlPath CREATE_TWEET), .create_tweet (some text) [] none])
      | .ok t => (.ok (some (.jobj [("tweetId", t.id)])),
          [.sign "POST" (urlPath CREATE_TWEET), .create_tweet (some text) [] none])

/-- Handler body for `postTweetWithMedia` (twikit_service.py lines 182-197). -/
def handlePostTweetWithMedia (cl : StubClient)
    (sign : String → String → Except String String) (args : Headers) :
    Except String (Option JsonVal) × List Call :=
  match hget args "text", hget args "mediaPath", hget args "mediaType" with
  | some text, some mediaPath, some _ =>
    match cl.upload_media (some mediaPath) with
    | .error e => (.error e, [.upload_media (some mediaPath)])
    | .ok mediaId =>
      match metaStep cl mediaId (hget args "altText") with
      | (.error e, mtr) => (.error e, .upload_media (some mediaPath) :: mtr)
      | (.ok _, mtr) =>
        match sign "POST" (urlPath CREATE_TWEET) with
        | .error e => (.error e,
            .upload_media (some mediaPath) :: (mtr ++ [.sign "POST" (urlPath CREATE_TWEET)]))
        | .ok _ =>
          match cl.create_tweet (some text) [mediaId] none with
          | .error e => (.error e,
              .upload_media (some mediaPath) ::
                (mtr ++ [.sign "POST" (urlPath CREATE_TWEET),
                         .create_tweet (some text) [mediaId] none]))
          | .ok t => (.ok (some (.jobj [("tweetId", t.id)])),
              .upload_media (some mediaPath) ::
                (mtr ++ [.sign "POST" (urlPath CREATE_TWEET),
                         .create_tweet (some text) [mediaId] none]))
  | _, _, _ => (.error "Missing arguments for postTweetWithMedia", [])

/-- Handler body for `likeTweet` (twikit_service.py lines 198-205); note the
success branch constructs a Result with no `data` key. -/
def handleLikeTweet (cl : StubClient)
    (sign : String → String → Except String String) (args : Headers) :
    Except String (Option JsonVal) × List Call :=
  match hget args "tweetId" with
  | none => (.error "Missing 'tweetId' for likeTweet", [])
  | some tweetId =>
    match sign "POST" (urlPath FAVORITE_TWEET) with
    | .error e => (.error e, [.sign "POST" (urlPath FAVORITE_TWEET)])
    | .ok _ =>
      match cl.favorite_tweet (some tweetId) with
      | .error e => (.error e,
          [.sign "POST" (urlPath FAVORITE_TWEET), .favorite_tweet (some tweetId)])
      | .ok _ => (.ok none,
          [.sign "POST" (urlPath FAVORITE_TWEET), .favorite_tweet (some tweetId)])

/-- Handler body for `unlikeTweet` (twikit_service.py lines 206-213); the
success branch constructs a Result with no `data` key. -/
def handleUnlikeTweet (cl : StubClient)
    (sign : String → String → Except String String) (args : Headers) :
    Except String (Option JsonVal) × List Call :=
  match hget args "tweetId" with
  | none => (.error "Missing 'tweetId' for unlikeTweet", [])
  | some tweetId =>
    match sign "POST" (urlPath UNFAVORITE_TWEET) with
    | .error e => (.error e, [.sign "POST" (urlPath UNFAVORITE_TWEET)])
    | .ok _ =>
      match cl.unfavorite_tweet (some tweetId) with
      | .error e => (.error e,
          [.sign "POST" (urlPath UNFAVORITE_TWEET), .unfavorite_tweet (some tweetId)])
      | .ok _ => (.ok none,
          [.sign "POST" (urlPath UNFAVORITE_TWEET), .unfavorite_tweet (some tweetId)])

/-- Handler body for `getLikedTweets` (twikit_service.py lines 214-218):
no argument validation; a missing `userId` is passed through as null. -/
def handleGetLikedTweets (cl : StubClient)
    (sign : String → String → Except String String) (args : Headers) :
    Except String (Option JsonVal) × List Call :=
  match cl.get_user_tweets (hget args "userId") "Likes" ((hget args "maxResults").getD "20") with
  | .error e => (.error e,
      [.get_user_tweets (hget args "userId") "Likes" ((hget args "maxResults").getD "20")])
  | .ok ts => (.ok (some (.jlist (ts.map Tweet.id))),
      [.get_user_tweets (hget args "userId") "Likes" ((hget args "maxResults").getD "20")])

/-- Handler body for `searchTweets` (twikit_service.py lines 219-223):
no argument validation; a missing `query` is passed through as null. -/
def handleSearchTweets (cl : StubClient)
    (sign : String → String → Except String String) (args : Headers) :
    Except String (Option JsonVal) × List Call :=
  match cl.search_tweet (hget args "query") "Top" ((hget args "maxResults").getD "20") with
  | .error e => (.error e,
      [.search_tweet (hget args "query") "Top" ((hget args "maxResults").getD "20")])
  | .ok ts => (.ok (some (.jlist (ts.map Tweet.id))),
      [.search_tweet (hget args "query") "Top" ((hget args "maxResults").getD "20")])

/-- Handler body for `replyToTweet` (twikit_service.py lines 224-232). -/
def handleReplyToTweet (cl : StubClient)
    (sign : String → String → Except String String) (args : Headers) :
    Except String (Option JsonVal) × List Call :=
  match hget args "tweetId", hget args "text" with
  | some tweetId, some text =>
    match sign "POST" (urlPath CREATE_TWEET) with
    | .error e => (.error e, [.sign "POST" (urlPath CREATE_TWEET)])
    | .ok _ =>
      match cl.create_tweet (some text) [] (some tweetId) with
      | .error e => (.error e,
          [.sign "POST" (urlPath CREATE_TWEET), .create_tweet (some text) [] (some tweetId)])
      | .ok t => (.ok (some (.jobj [("tweetId", t.id)])),
          [.sign "POST" (urlPath CREATE_TWEET), .create_tweet (some text) [] (some tweetId)])
  | _, _ => (.error "Missing arguments for replyToTweet", [])

/-- Handler body for `getUserTimeline` (twikit_service.py lines 233-237):
no argument validation. -/
def handleGetUserTimeline (cl : StubClient)
    (sign : String → String → Except String String) (args : Headers) :
    Except String (Option JsonVal) × List Call :=
  match cl.get_user_tweets (hget args "userId") "Tweets" ((hget args "maxResults").getD "20") with
  | .error e => (.error e,
      [.get_user_tweets (hget args "userId") "Tweets" ((hget args "maxResults").getD "20")])
  | .ok ts => (.ok (some (.jlist (ts.map Tweet.id))),
      [.get_user_tweets (hget args "userId") "Tweets" ((hget args "maxResults").getD "20")])

/-- Handler body for `getTweetById` (twikit_service.py lines 238-241):
no argument validation; a missing `tweetId` is passed through as null. -/
def handleGetTweetById (cl : StubClient)
    (sign : String → String → Except String String) (args : Headers) :
    Except String (Option JsonVal) × List Call :=
  match cl.get_tweet_by_id (hget args "tweetId") with
  | .error e => (.error e, [.get_tweet_by_id (hget args "tweetId")])
  | .ok t => (.ok (some (.jobj [("tweetId", t.id), ("text", t.text)])),
      [.get_tweet_by_id (hget args "tweetId")])

/-- Handler body for `getUserInfo` (twikit_service.py lines 242-245):
no argument validation; a missing `username` is passed through as null. -/
def handleGetUserInfo (cl : StubClient)
    (sign : String → String → Except String String) (args : Headers) :
    Except String (Option JsonVal) × List Call :=
  match cl.get_user_by_screen_name (hget args "username") with
  | .error e => (.error e, [.get_user_by_screen_name (hget args "username")])
  | .ok u => (.ok (some (.jobj [("userId", u.id), ("username", u.screen_name)])),
      [.get_user_by_screen_name (hget args "username")])

/-- Handler body for `getTweetsByIds` (twikit_service.py lines 246-249). -/
def handleGetTweetsByIds (cl : StubClient)
    (sign : String → String → Except String String) (args : Headers) :
    Except String (Option JsonVal) × List Call :=
  match cl.get_tweets_by_ids ((hget args "tweetIds").getD "") with
  | .error e => (.error e, [.get_tweets_by_ids ((hget args "tweetIds").getD "")])
  | .ok ts => (.ok (some (.jlist (ts.map Tweet.id))),
      [.get_tweets_by_ids ((hget args "tweetIds").getD "")])

/-- Handler body for `retweet` (twikit_service.py lines 250-255): no argument
validation; the success branch constructs a Result with no `data` key. -/
def handleRetweet (cl : StubClient)
    (sign : String → String → Except String String) (args : Headers) :
    Except String (Option JsonVal) × List Call :=
  match sign "POST" (urlPath RETWEET) with
  | .error e => (.error e, [.sign "POST" (urlPath RETWEET)])
  | .ok _ =>
    match cl.retweet (hget args "tweetId") with
    | .error e => (.error e, [.sign "POST" (urlPath RETWEET), .retweet (hget args "tweetId")])
    | .ok _ => (.ok none, [.sign "POST" (urlPath RETWEET), .retweet (hget args "tweetId")])

/-- Handler body for `undoRetweet` (twikit_service.py lines 256-261): no
argument validation; the success branch constructs a Result with no `data`
key. -/
def handleUndoRetweet (cl : StubClient)
    (sign : String → String → Except String String) (args : Headers) :
    Except String (Option JsonVal) × List Call :=
  match sign "POST" (urlPath DELETE_RETWEET) with
  | .error e => (.error e, [.sign "POST" (urlPath DELETE_RETWEET)])
  | .ok _ =>
    match cl.delete_retweet (hget args "tweetId") with
    | .error e => (.error e,
        [.sign "POST" (urlPath DELETE_RETWEET), .delete_retweet (hget args "tweetId")])
    | .ok _ => (.ok none,
        [.sign "POST" (urlPath DELETE_RETWEET), .delete_retweet (hget args "tweetId")])

/-- Handler body for `getRetweets` (twikit_service.py lines 262-266). -/
def handleGetRetweets (cl : StubClient)
    (sign : String → String → Except String String) (args : Headers) :
    Except String (Option JsonVal) × List Call :=
  match cl.get_retweeters (hget args "tweetId") ((hget args "maxResults").getD "20") with
  | .error e => (.error e,
      [.get_retweeters (hget args "tweetId") ((hget args "maxResults").getD "20")])
  | .ok us => (.ok (some (.jlist (us.map User.id))),
      [.get_retweeters (hget args "tweetId") ((hget args "maxResults").getD "20")])

/-- Handler body for `followUser` (twikit_service.py lines 267-271). -/
def handleFollowUser (cl : StubClient)
    (sign : String → String → Except String String) (args : Headers) :
    Except String (Option JsonVal) × List Call :=
  match cl.get_user_by_screen_name (hget args "username") with
  | .error e => (.error e, [.get_user_by_screen_name (hget args "username")])
  | .ok u =>
    match cl.follow_user u.id with
    | .error e => (.error e,
        [.get_user_by_screen_name (hget args "username"), .follow_user u.id])
    | .ok out => (.ok (some (.jobj [("userId", out.id)])),
        [.get_user_by_screen_name (hget args "username"), .follow_user u.id])

/-- Handler body for `unfollowUser` (twikit_service.py lines 272-276). -/
def handleUnfollowUser (cl : StubClient)
    (sign : String → String → Except String String) (args : Headers) :
    Except String (Option JsonVal) × List Call :=
  match cl.get_user_by_screen_name (hget args "username") with
  | .error e => (.error e, [.get_user_by_screen_name (hget args "username")])
  | .ok u =>
    match cl.unfollow_user u.id with
    | .error e => (.error e,
        [.get_user_by_screen_name (hget args "username"), .unfollow_user u.id])
    | .ok out => (.ok (some (.jobj [("userId", out.id)])),
        [.get_user_by_screen_name (hget args "username"), .unfollow_user u.id])

/-- Handler body for `deleteTweet` (twikit_service.py lines 277-280): no
argument validation, no signer invocation, and the success branch constructs
a Result with no `data` key. -/
def handleDeleteTweet (cl : StubClient)
    (sign : String → String → Except String String) (args : Headers) :
    Except String (Option JsonVal) × List Call :=
  match cl.delete_tweet (hget args "tweetId") with
  | .error e => (.error e, [.delete_tweet (hget args "tweetId")])
  | .ok _ => (.ok none, [.delete_tweet (hget args "tweetId")])

/-- The bridge's dispatch chain (twikit_service.py lines 161-282): the
if/elif ladder over the action name, in source order, ending in the
unknown-action failure.  Returns the handler outcome (`Except.error` models a
raised exception or a directly-constructed failure Result's message;
`Except.ok d` models a success Result whose `data` payload is `d`, with `none`
meaning the `"data"` key is absent) together with the chronological trace of
signer and PlatformClient invocations. -/
def runHandler (cl : StubClient) (sign : String → String → Except String String)
    (a : String) (args : Headers) : Except String (Option JsonVal) × List Call :=
  if a = "get_transaction_id" then handleGetTransactionId cl sign args
  else if a = "postTweet" then handlePostTweet cl sign args
  else if a = "postTweetWithMedia" then handlePostTweetWithMedia cl sign args
  else if a = "likeTweet" then handleLikeTweet cl sign args
  else if a = "unlikeTweet" then handleUnlikeTweet cl sign args
  else if a = "getLikedTweets" then handleGetLikedTweets cl sign args
  else if a = "searchTweets" then handleSearchTweets cl sign args
  else if a = "replyToTweet" then handleReplyToTweet cl sign args
  else if a = "getUserTimeline" then handleGetUserTimeline cl sign args
  else if a = "getTweetById" then handleGetTweetById cl sign args
  else if a = "getUserInfo" then handleGetUserInfo cl sign args
  else if a = "getTweetsByIds" then handleGetTweetsByIds cl sign args
  else if a = "retweet" then handleRetweet cl sign args
  else if a = "undoRetweet" then handleUndoRetweet cl sign args
  else if a = "getRetweets" then handleGetRetweets cl sign args
  else if a = "followUser" then handleFollowUser cl sign args
  else if a = "unfollowUser" then handleUnfollowUser cl sign args
  else if a = "deleteTweet" then handleDeleteTweet cl sign args
  else (.error ("Unknown action '" ++ a ++ "'"), [])


/-- The per-command part of the bridge loop body (twikit_service.py lines
153-287): extract id and action, treat a missing or empty (falsy) action as
`Missing 'action' in command`, dispatch through the action chain, and shape
the outcome into exactly one Result carrying the command's id. -/
def processCommand (cl : StubClient) (sign : String → String → Except String String)
    (c : Command) : Result × List Call :=
  match c.action with
  | none => (⟨c.id, false, none, some "Missing 'action' in command"⟩, [])
  | some a =>
    if a = "" then (⟨c.id, false, none, some "Missing 'action' in command"⟩, [])
    else
      match runHandler cl sign a c.args with
      | (.ok d, tr) => (⟨c.id, true, d, none⟩, tr)
      | (.error e, tr) => (⟨c.id, false, none, some e⟩, tr)

/-- One input line, after JSON decoding has been attempted:
either a decode failure (carrying the decoder's message) or a parsed Command. -/
inductive Line where
  | malformed (emsg : String)
  | parsed (c : Command)

/-- The whole loop body for one input line (twikit_service.py lines 153-287):
a JSON decode failure is reported with `id = null` (the `request_id = None`
initialization), a parsed command is dispatched. -/
def processLine (cl : StubClient) (sign : String → String → Except String String) :
    Line → Result × List Call
  | .malformed emsg =>
    (⟨.jnull, false, none, some ("Invalid JSON command: " ++ emsg)⟩, [])
  | .parsed c => processCommand cl sign c

/-- The Serving loop (twikit_service.py lines 149-287): one Result line is
emitted per input line, in order, and the loop continues after every line. -/
def runBridge (cl : StubClient) (sign : String → String → Except String String)
    (lines : List Line) : List Result :=
  lines.map (fun l => (processLine cl sign l).1)

/-- Model of the bridge's startup priming (twikit_service.py lines 98-145):
the missing-data guard over the CredentialProvider output, cookie-header
assembly, the truthiness-guarded ct0 lookup, and the population of
`HEADERS_TO_INJECT`.  `Except.error` models the early-return paths that emit a
single failure Result and never reach the ready signal or the Serving loop;
`Except.ok` returns the populated injected-header baseline, after which the
bridge unconditionally emits `{"status": "ready"}` and enters Serving. -/
def bridgeStart (commonHeaders cookies : Headers) (homeHtml ondemandJs : String) :
    Except String Headers :=
  if commonHeaders.isEmpty || cookies.isEmpty || homeHtml == "" || ondemandJs == "" then
    .error "Missing authentication or transaction generator data"
  else
    let cookieHeader := String.intercalate "; " (cookies.map (fun p => p.1 ++ "=" ++ p.2))
    let withCsrf :=
      match hget cookies "ct0" with
      | some t => if t = "" then commonHeaders else hset commonHeaders "x-csrf-token" t
      | none => commonHeaders
    .ok (hset withCsrf "Cookie" cookieHeader)

/-- Whether the bridge reaches the Serving loop for the given startup data
(it does exactly when `bridgeStart` succeeds). -/
def bridgeEntersServing (commonHeaders cookies : Headers)
    (homeHtml ondemandJs : String) : Bool :=
  (bridgeStart commonHeaders cookies homeHtml ondemandJs).isOk

/-- Model of the ct0 guard of `XService.initialize_client` (x_service.py lines
75-93): a missing or empty (falsy) ct0 cookie raises ValueError, which the
surrounding handler converts into an error status; otherwise initialization
succeeds. -/
def xServiceInit (cookies : Headers) : Except String Unit :=
  match hget cookies "ct0" with
  | none => .error "Error initializing X client: No 'ct0' token found in cookies. Please log in first."
  | some t =>
    if t = "" then
      .error "Error initializing X client: No 'ct0' token found in cookies. Please log in first."
    else .ok ()

/-- A PlatformClient stub whose operations all succeed with canned values;
used to evaluate the bridge on concrete inputs. -/
def stubOkClient : StubClient where
  create_tweet := fun _ _ _ => .ok ⟨"T1", "TXT"⟩
  upload_media := fun _ => .ok "M1"
  create_media_metadata := fun _ _ => .ok ()
  favorite_tweet := fun _ => .ok ()
  unfavorite_tweet := fun _ => .ok ()
  get_user_tweets := fun _ _ _ => .ok [⟨"T1", "TXT"⟩]
  search_tweet := fun _ _ _ => .ok [⟨"T1", "TXT"⟩]
  get_tweet_by_id := fun _ => .ok ⟨"T1", "TXT"⟩
  get_user_by_screen_name := fun _ => .ok ⟨"U1", "alice"⟩
  get_tweets_by_ids := fun _ => .ok [⟨"T1", "TXT"⟩]
  retweet := fun _ => .ok ()
  delete_retweet := fun _ => .ok ()
  get_retweeters := fun _ _ => .ok [⟨"U1", "alice"⟩]
  follow_user := fun _ => .ok ⟨"U1", "alice"⟩
  unfollow_user := fun _ => .ok ⟨"U1", "alice"⟩
  delete_tweet := fun _ => .ok ()

/-- A deterministic signer that always succeeds, tagging its output with its
arguments; used to evaluate the bridge on concrete inputs. -/
def signOk : String → String → Except String String :=
  fun m p => .ok ("tok|" ++ m ++ "|" ++ p)

theorem hget_hset_self (m : Headers) (k v : String) : hget (hset m k v) k = some v := by
  induction m with
  | nil => simp [hset, hget]
  | cons hd tl ih =>
    obtain ⟨k', v'⟩ := hd
    by_cases h : k' = k
    · simp [hset, h, hget]
    · simp [hset, h, hget, ih]

theorem hget_hset_ne (m : Headers) (k v k2 : String) (h : k ≠ k2) :
    hget (hset m k v) k2 = hget m k2 := by
  induction m with
  | nil => simp [hset, hget, h]
  | cons hd tl ih =>
    obtain ⟨k', v'⟩ := hd
    by_cases h2 : k' = k
    · subst h2
      simp [hset, hget, h]
    · simp [hset, h2, hget, ih]

theorem hget_mergeStep_ne (acc : Headers) (kv : String × String) (k : String)
    (h : kv.1 ≠ k) : hget (mergeStep acc kv) k = hget acc k := by
  unfold mergeStep
  split
  · exact hget_hset_ne acc kv.1 kv.2 k h
  · split
    · rfl
    · exact hget_hset_ne acc kv.1 kv.2 k h

theorem mergeHeaders_cons (b : Headers) (hd : String × String) (tl : Headers) :
    mergeHeaders b (hd :: tl) = mergeHeaders (mergeStep b hd) tl := rfl

theorem hget_mergeHeaders_notKey : ∀ (c b : Headers) (k : String),
    k ∉ c.map Prod.fst → hget (mergeHeaders b c) k = hget b k := by
  intro c
  induction c with
  | nil => intro b k _; rfl
  | cons hd tl ih =>
    intro b k hk
    simp only [List.map_cons, List.mem_cons, not_or] at hk
    obtain ⟨h1, h2⟩ := hk
    rw [mergeHeaders_cons, ih (mergeStep b hd) k h2,
      hget_mergeStep_ne b hd k (Ne.symm h1)]

theorem hget_mergeHeaders_mem : ∀ (c b : Headers) (k v : String),
    (c.map Prod.fst).Nodup → (k, v) ∈ c →
    hget (mergeHeaders b c) k =
      some (if strLower k = "content-type" then v else (hget b k).getD v) := by
  intro c
  induction c with
  | nil => intro b k v _ hmem; cases hmem
  | cons hd tl ih =>
    intro b k v hnd hmem
    rw [mergeHeaders_cons]
    simp only [List.map_cons, List.nodup_cons] at hnd
    obtain ⟨hnotin, hndtl⟩ := hnd
    rcases List.mem_cons.mp hmem with heq | htl
    · subst heq
      rw [hget_mergeHeaders_notKey tl (mergeStep b (k, v)) k hnotin]
      unfold mergeStep
      by_cases hct : strLower k = "content-type"
      · simp [hct, hget_hset_self]
      · cases hb : hget b k with
        | some w => simp [hct, hb]
        | none => simp [hct, hb, hget_hset_self]
    · have hkin : k ∈ tl.map Prod.fst := List.mem_map.mpr ⟨(k, v), htl, rfl⟩
      have hne : hd.1 ≠ k := fun h => hnotin (h ▸ hkin)
      rw [ih (mergeStep b hd) k v hndtl htl, hget_mergeStep_ne b hd k hne]

/-- C1: every input line that parses as a JSON Command yields exactly one
Result carrying the same id (whatever its shape: null, string or number);
every line that fails to parse yields a Result with null id; and the Serving
loop emits exactly one Result per input line and continues past every line. -/
theorem C1_result_correlation (cl : StubClient)
    (sign : String → String → Except String String) (c : Command)
    (emsg : String) (lines : List Line) :
    (processLine cl sign (.parsed c)).1.id = c.id ∧
    (processLine cl sign (.malformed emsg)).1.id = JId.jnull ∧
    (runBridge cl sign lines).length = lines.length := by
  refine ⟨?_, rfl, by simp [runBridge]⟩
  show (processCommand cl sign c).1.id = c.id
  rcases c with ⟨i, act, args⟩
  cases act with
  | none => rfl
  | some a =>
    by_cases ha : a = ""
    · simp [processCommand, ha]
    · simp only [processCommand]
      rw [if_neg ha]
      cases hq : runHandler cl sign a args with
      | mk r tr => cases r <;> rfl

/-- C2: in the header merge of both patched transports, a caller-supplied
key lower-casing to content-type always wins over the baseline; any other
caller key is included only when the baseline does not already define that
key, the baseline value winning every other collision on that key. -/
theorem C2_header_merge_precedence (b c : Headers) (k v : String)
    (hnd : (c.map Prod.fst).Nodup) (hmem : (k, v) ∈ c) :
    (strLower k = "content-type" → hget (mergeHeaders b c) k = some v) ∧
    (strLower k ≠ "content-type" → ∀ w, hget b k = some w →
      hget (mergeHeaders b c) k = some w) ∧
    (strLower k ≠ "content-type" → hget b k = none →
      hget (mergeHeaders b c) k = some v) := by
  refine ⟨fun hct => ?_, fun hct w hw => ?_, fun hct hw => ?_⟩
  · rw [hget_mergeHeaders_mem c b k v hnd hmem]
    simp [hct]
  · rw [hget_mergeHeaders_mem c b k v hnd hmem]
    simp [hct, hw]
  · rw [hget_mergeHeaders_mem c b k v hnd hmem]
    simp [hct, hw]

/-- Witness for C2 at concrete inputs: the caller's Content-Type wins, the
caller's Authorization loses to the baseline, the caller's Accept is added
because the baseline lacks it. -/
theorem C2_header_merge_precedence_witness :
    hget (mergeHeaders
        [("Content-Type", "base-ct"), ("Authorization", "base-auth")]
        [("Content-Type", "caller-ct"), ("Authorization", "caller-auth"),
         ("Accept", "caller-acc")]) "Content-Type" = some "caller-ct" ∧
    hget (mergeHeaders
        [("Content-Type", "base-ct"), ("Authorization", "base-auth")]
        [("Content-Type", "caller-ct"), ("Authorization", "caller-auth"),
         ("Accept", "caller-acc")]) "Authorization" = some "base-auth" ∧
    hget (mergeHeaders
        [("Content-Type", "base-ct"), ("Authorization", "base-auth")]
        [("Content-Type", "caller-ct"), ("Authorization", "caller-auth"),
         ("Accept", "caller-acc")]) "Accept" = some "caller-acc" :=
  ⟨(C2_header_merge_precedence _ _ "Content-Type" "caller-ct"
      (by decide) (by decide)).1 (by decide),
   (C2_header_merge_precedence _ _ "Authorization" "caller-auth"
      (by decide) (by decide)).2.1 (by decide) "base-auth" (by decide),
   (C2_header_merge_precedence _ _ "Accept" "caller-acc"
      (by decide) (by decide)).2.2 (by decide) (by decide)⟩

/-- C10: the merge's collision check is case-sensitive on key spelling: a
caller key differing from a baseline key only in letter case (and not
lower-casing to content-type) is added alongside the surviving baseline entry;
and a caller content-type key in a different casing than the baseline's
`Content-Type` is added under the caller's casing while the baseline entry
also remains. -/
theorem C10_case_sensitive_merge (b c : Headers) (K Kp v w : String)
    (hnd : (c.map Prod.fst).Nodup)
    (hcase : strLower K = strLower Kp) (hne : K ≠ Kp)
    (hct : strLower Kp ≠ "content-type")
    (hbK : hget b K = some v) (hbKp : hget b Kp = none)
    (hcKp : (Kp, w) ∈ c)
    (b2 c2 : Headers) (K2 v2 w2 : String)
    (hnd2 : (c2.map Prod.fst).Nodup)
    (hct2 : strLower K2 = "content-type") (_hne2 : K2 ≠ "Content-Type")
    (hb2 : hget b2 "Content-Type" = some v2)
    (hc2 : (K2, w2) ∈ c2) (hcc2 : "Content-Type" ∉ c2.map Prod.fst) :
    hget (mergeHeaders b c) Kp = some w ∧
    hget (mergeHeaders b c) K = some v ∧
    hget (mergeHeaders b2 c2) K2 = some w2 ∧
    hget (mergeHeaders b2 c2) "Content-Type" = some v2 := by
  refine ⟨?_, ?_, ?_, ?_⟩
  · rw [hget_mergeHeaders_mem c b Kp w hnd hcKp]
    simp [hct, hbKp]
  · by_cases hKin : K ∈ c.map Prod.fst
    · obtain ⟨⟨k1, w1⟩, hmem1, hfst⟩ := List.mem_map.mp hKin
      simp only at hfst
      subst hfst
      rw [hget_mergeHeaders_mem c b k1 w1 hnd hmem1]
      have hKct : strLower k1 ≠ "content-type" := by rw [hcase]; exact hct
      simp [hKct, hbK]
    · rw [hget_mergeHeaders_notKey c b K hKin, hbK]
  · rw [hget_mergeHeaders_mem c2 b2 K2 w2 hnd2 hc2]
    simp [hct2]
  · rw [hget_mergeHeaders_notKey c2 b2 "Content-Type" hcc2, hb2]

/-- Witness for C10 at concrete inputs: `ACCEPT` joins `Accept`, and a
lower-cased `content-type` joins the baseline's `Content-Type`. -/
theorem C10_case_sensitive_merge_witness :
    hget (mergeHeaders [("Accept", "base-acc")] [("ACCEPT", "caller-acc")])
      "ACCEPT" = some "caller-acc" ∧
    hget (mergeHeaders [("Accept", "base-acc")] [("ACCEPT", "caller-acc")])
      "Accept" = some "base-acc" ∧
    hget (mergeHeaders [("Content-Type", "base-ct")] [("content-type", "caller-ct")])
      "content-type" = some "caller-ct" ∧
    hget (mergeHeaders [("Content-Type", "base-ct")] [("content-type", "caller-ct")])
      "Content-Type" = some "base-ct" :=
  C10_case_sensitive_merge [("Accept", "base-acc")] [("ACCEPT", "caller-acc")]
    "Accept" "ACCEPT" "base-acc" "caller-acc" (by decide) (by decide) (by decide)
    (by decide) (by decide) (by decide) (by decide)
    [("Content-Type", "base-ct")] [("content-type", "caller-ct")]
    "content-type" "base-ct" "caller-ct" (by decide) (by decide) (by decide)
    (by decide) (by decide) (by decide)

/-- C3 evaluation at the failing input: the bridge-side patched transport
(`twikit_service.patched_http_client_request`) performs no signer invocation
for a URL matching the signed-API prefix and forwards the baseline's stale
`x-client-transaction-id` unchanged; and the `deleteTweet` handler issues its
PlatformClient call without any signer invocation, so nothing refreshes the
token for that outbound call. -/
theorem C3_bridge_merge_never_signs :
    isGraphqlUrl "https://x.com/i/api/graphql/QID/DeleteTweet" = true ∧
    (twikitBridgeRequest
        [("Cookie", "a=b"), ("x-csrf-token", "t0"), ("x-client-transaction-id", "staleTok")]
        [("Accept", "json")] "POST" "https://x.com/i/api/graphql/QID/DeleteTweet").signCalls = [] ∧
    (twikitBridgeRequest
        [("Cookie", "a=b"), ("x-csrf-token", "t0"), ("x-client-transaction-id", "staleTok")]
        [("Accept", "json")] "POST" "https://x.com/i/api/graphql/QID/DeleteTweet").sent =
      some ("POST", "https://x.com/i/api/graphql/QID/DeleteTweet",
        mergeHeaders
          [("Cookie", "a=b"), ("x-csrf-token", "t0"), ("x-client-transaction-id", "staleTok")]
          [("Accept", "json")]) ∧
    hget (mergeHeaders
        [("Cookie", "a=b"), ("x-csrf-token", "t0"), ("x-client-transaction-id", "staleTok")]
        [("Accept", "json")]) "x-client-transaction-id" = some "staleTok" ∧
    (processCommand stubOkClient signOk
        ⟨.jnum 7, some "deleteTweet", [("tweetId", "123")]⟩).2 =
      [Call.delete_tweet (some "123")] := by
  refine ⟨by decide, rfl, rfl, by decide, by decide⟩

/-- C4: when token generation fails, the ClientPatcher middleware never
invokes the wrapped transport for that call and propagates the failure; on the
bridge side a signing failure inside a handler is reported as a failed Result
with no PlatformClient call attempted. -/
theorem C4_signing_fail_closed (sign : String → String → Except String String)
    (e : String) (hsig : ∀ m p, sign m p = .error e)
    (b c : Headers) (m u : String) (hu : isGraphqlUrl u = true)
    (cl : StubClient) (i : JId) (url method : String) :
    (patcherRequest sign b c m u).sent = none ∧
    (patcherRequest sign b c m u).failed = some e ∧
    (processCommand cl sign ⟨i, some "get_transaction_id",
        [("url", url), ("method", method)]⟩).1 =
      ⟨i, false, none, some ("Failed to generate transaction ID: " ++ e)⟩ ∧
    (processCommand cl sign ⟨i, some "get_transaction_id",
        [("url", url), ("method", method)]⟩).2 = [Call.sign method (urlPath url)] ∧
    (processCommand cl sign ⟨i, some "postTweet", [("text", "hi")]⟩).1 =
      ⟨i, false, none, some e⟩ ∧
    (processCommand cl sign ⟨i, some "postTweet", [("text", "hi")]⟩).2 =
      [Call.sign "POST" (urlPath CREATE_TWEET)] := by
  refine ⟨?_, ?_, ?_, ?_, ?_, ?_⟩ <;>
    simp [patcherRequest, processCommand, runHandler, handleGetTransactionId,
      handlePostTweet, hget, hu, hsig]

/-- Witness for C4: a signer that always fails, applied to a signed URL and to
concrete bridge commands. -/
theorem C4_signing_fail_closed_witness :
    (patcherRequest (fun _ _ => .error "boom") [("Cookie", "a=b")] []
        "post" "https://x.com/i/api/graphql/Q/CreateTweet").sent = none ∧
    (patcherRequest (fun _ _ => .error "boom") [("Cookie", "a=b")] []
        "post" "https://x.com/i/api/graphql/Q/CreateTweet").failed = some "boom" ∧
    (processCommand stubOkClient (fun _ _ => .error "boom")
        ⟨.jnum 4, some "get_transaction_id",
          [("url", "https://x.com/i/api/graphql/Q/CreateTweet"), ("method", "post")]⟩).1 =
      ⟨.jnum 4, false, none, some ("Failed to generate transaction ID: " ++ "boom")⟩ ∧
    (processCommand stubOkClient (fun _ _ => .error "boom")
        ⟨.jnum 4, some "get_transaction_id",
          [("url", "https://x.com/i/api/graphql/Q/CreateTweet"), ("method", "post")]⟩).2 =
      [Call.sign "post" (urlPath "https://x.com/i/api/graphql/Q/CreateTweet")] ∧
    (processCommand stubOkClient (fun _ _ => .error "boom")
        ⟨.jnum 4, some "postTweet", [("text", "hi")]⟩).1 =
      ⟨.jnum 4, false, none, some "boom"⟩ ∧
    (processCommand stubOkClient (fun _ _ => .error "boom")
        ⟨.jnum 4, some "postTweet", [("text", "hi")]⟩).2 =
      [Call.sign "POST" (urlPath CREATE_TWEET)] :=
  C4_signing_fail_closed (fun _ _ => .error "boom") "boom" (fun _ _ => rfl)
    [("Cookie", "a=b")] [] "post" "https://x.com/i/api/graphql/Q/CreateTweet"
    (by decide) stubOkClient (.jnum 4)
    "https://x.com/i/api/graphql/Q/CreateTweet" "post"

/-- Counterexample to C5: with otherwise-complete startup data whose cookie
jar lacks `ct0` entirely, the bridge's priming succeeds and the bridge enters
the Serving loop, contradicting the claim that it does not. -/
theorem C5_counterexample :
    hget [("auth_token", "tok")] "ct0" = none ∧
    bridgeEntersServing [("User-Agent", "ua")] [("auth_token", "tok")]
      "home" "od" = true := by
  exact ⟨by decide, by decide⟩

/-- C5 (amended): a missing or empty ct0 makes `XService.initialize_client`
fail with the startup error (the mcp-x-server analogue of ConfigError) so that
server never authenticates; the python bridge, however, does not fail on a
missing or empty ct0: with otherwise-complete startup data it still primes,
merely omitting the `x-csrf-token` injected header, and enters Serving. -/
theorem C5_amended (cookies commonHeaders : Headers) (homeHtml ondemandJs : String)
    (hct0 : hget cookies "ct0" = none ∨ hget cookies "ct0" = some "")
    (hck : cookies ≠ []) (hch : commonHeaders ≠ [])
    (hhh : homeHtml ≠ "") (hoj : ondemandJs ≠ "") :
    xServiceInit cookies =
      .error "Error initializing X client: No 'ct0' token found in cookies. Please log in first." ∧
    bridgeEntersServing commonHeaders cookies homeHtml ondemandJs = true ∧
    (∀ h, bridgeStart commonHeaders cookies homeHtml ondemandJs = .ok h →
      hget h "x-csrf-token" = hget commonHeaders "x-csrf-token") := by
  have hckE : cookies.isEmpty = false := by
    cases cookies
    · exact absurd rfl hck
    · rfl
  have hchE : commonHeaders.isEmpty = false := by
    cases commonHeaders
    · exact absurd rfl hch
    · rfl
  have hhhE : (homeHtml == "") = false := beq_eq_false_iff_ne.mpr hhh
  have hojE : (ondemandJs == "") = false := beq_eq_false_iff_ne.mpr hoj
  refine ⟨?_, ?_, ?_⟩
  · unfold xServiceInit
    rcases hct0 with h | h <;> simp [h]
  · unfold bridgeEntersServing bridgeStart
    rcases hct0 with h | h <;>
      simp [hckE, hchE, hhhE, hojE, h, Except.isOk, Except.toBool]
  · intro h hEq
    unfold bridgeStart at hEq
    rcases hct0 with h0 | h0 <;>
      simp only [hckE, hchE, hhhE, hojE, Bool.false_or, Bool.or_self,
        Bool.false_eq_true, if_false, h0, Except.ok.injEq] at hEq <;>
      rw [← hEq] <;>
      exact hget_hset_ne _ _ _ _ (by decide)


theorem handleGetTransactionId_ok_data (cl : StubClient)
    (sign : String → String → Except String String) (args : Headers)
    (d : Option JsonVal) (tr : List Call)
    (h : handleGetTransactionId cl sign args = (.ok d, tr)) : d.isSome = true := by
  unfold handleGetTransactionId at h
  rcases hA : hget args "url" with _ | u
  · simp [hA] at h
  · rcases hB : hget args "method" with _ | m
    · simp [hA, hB] at h
    · rcases hC : sign m (urlPath u) with e | t
      · simp [hA, hB, hC] at h
      · simp [hA, hB, hC] at h
        obtain ⟨h1, h2⟩ := h
        subst h1
        rfl

theorem handlePostTweet_ok_data (cl : StubClient)
    (sign : String → String → Except String String) (args : Headers)
    (d : Option JsonVal) (tr : List Call)
    (h : handlePostTweet cl sign args = (.ok d, tr)) : d.isSome = true := by
  unfold handlePostTweet at h
  rcases hA : hget args "text" with _ | text
  · simp [hA] at h
  · rcases hB : sign "POST" (urlPath CREATE_TWEET) with e | tk
    · simp [hA, hB] at h
    · rcases hC : cl.create_tweet (some text) [] none with e | t
      · simp [hA, hB, hC] at h
      · simp [hA, hB, hC] at h
        obtain ⟨h1, h2⟩ := h
        subst h1
        rfl

theorem handlePostTweetWithMedia_ok_data (cl : StubClient)
    (sign : String → String → Except String String) (args : Headers)
    (d : Option JsonVal) (tr : List Call)
    (h : handlePostTweetWithMedia cl sign args = (.ok d, tr)) : d.isSome = true := by
  unfold handlePostTweetWithMedia at h
  rcases hA : hget args "text" with _ | text
  · simp [hA] at h
  · rcases hB : hget args "mediaPath" with _ | mp
    · simp [hA, hB] at h
    · rcases hC : hget args "mediaType" with _ | mt
      · simp [hA, hB, hC] at h
      · rcases hD : cl.upload_media (some mp) with e | mid
        · simp [hA, hB, hC, hD] at h
        · rcases hE : metaStep cl mid (hget args "altText") with ⟨ms | ms, mtr⟩
          · simp [hA, hB, hC, hD, hE] at h
          · rcases hF : sign "POST" (urlPath CREATE_TWEET) with e2 | tk
            · simp [hA, hB, hC, hD, hE, hF] at h
            · rcases hG : cl.create_tweet (some text) [mid] none with e3 | t
              · simp [hA, hB, hC, hD, hE, hF, hG] at h
              · simp [hA, hB, hC, hD, hE, hF, hG] at h
                obtain ⟨h1, h2⟩ := h
                subst h1
                rfl

theorem handleGetLikedTweets_ok_data (cl : StubClient)
    (sign : String → String → Except String String) (args : Headers)
    (d : Option JsonVal) (tr : List Call)
    (h : handleGetLikedTweets cl sign args = (.ok d, tr)) : d.isSome = true := by
  unfold handleGetLikedTweets at h
  rcases hA : cl.get_user_tweets (hget args "userId") "Likes"
      ((hget args "maxResults").getD "20") with e | ts
  · simp [hA] at h
  · simp [hA] at h
    obtain ⟨h1, h2⟩ := h
    subst h1
    rfl

theorem handleSearchTweets_ok_data (cl : StubClient)
    (sign : String → String → Except String String) (args : Headers)
    (d : Option JsonVal) (tr : List Call)
    (h : handleSearchTweets cl sign args = (.ok d, tr)) : d.isSome = true := by
  unfold handleSearchTweets at h
  rcases hA : cl.search_tweet (hget args "query") "Top"
      ((hget args "maxResults").getD "20") with e | ts
  · simp [hA] at h
  · simp [hA] at h
    obtain ⟨h1, h2⟩ := h
    subst h1
    rfl

theorem handleReplyToTweet_ok_data (cl : StubClient)
    (sign : String → String → Except String String) (args : Headers)
    (d : Option JsonVal) (tr : List Call)
    (h : handleReplyToTweet cl sign args = (.ok d, tr)) : d.isSome = true := by
  unfold handleReplyToTweet at h
  rcases hA : hget args "tweetId" with _ | tid
  · simp [hA] at h
  · rcases hB : hget args "text" with _ | text
    · simp [hA, hB] at h
    · rcases hC : sign "POST" (urlPath CREATE_TWEET) with e | tk
      · simp [hA, hB, hC] at h
      · rcases hD : cl.create_tweet (some text) [] (some tid) with e | t
        · simp [hA, hB, hC, hD] at h
        · simp [hA, hB, hC, hD] at h
          obtain ⟨h1, h2⟩ := h
          subst h1
          rfl

theorem handleGetUserTimeline_ok_data (cl : StubClient)
    (sign : String → String → Except String String) (args : Headers)
    (d : Option JsonVal) (tr : List Call)
    (h : handleGetUserTimeline cl sign args = (.ok d, tr)) : d.isSome = true := by
  unfold handleGetUserTimeline at h
  rcases hA : cl.get_user_tweets (hget args "userId") "Tweets"
      ((hget args "maxResults").getD "20") with e | ts
  · simp [hA] at h
  · simp [hA] at h
    obtain ⟨h1, h2⟩ := h
    subst h1
    rfl

theorem handleGetTweetById_ok_data (cl : StubClient)
    (sign : String → String → Except String String) (args : Headers)
    (d : Option JsonVal) (tr : List Call)
    (h : handleGetTweetById cl sign args = (.ok d, tr)) : d.isSome = true := by
  unfold handleGetTweetById at h
  rcases hA : cl.get_tweet_by_id (hget args "tweetId") with e | t
  · simp [hA] at h
  · simp [hA] at h
    obtain ⟨h1, h2⟩ := h
    subst h1
    rfl

theorem handleGetUserInfo_ok_data (cl : StubClient)
    (sign : String → String → Except String String) (args : Headers)
    (d : Option JsonVal) (tr : List Call)
    (h : handleGetUserInfo cl sign args = (.ok d, tr)) : d.isSome = true := by
  unfold handleGetUserInfo at h
  rcases hA : cl.get_user_by_screen_name (hget args "username") with e | u
  · simp [hA] at h
  · simp [hA] at h
    obtain ⟨h1, h2⟩ := h
    subst h1
    rfl

theorem handleGetTweetsByIds_ok_data (cl : StubClient)
    (sign : String → String → Except String String) (args : Headers)
    (d : Option JsonVal) (tr : List Call)
    (h : handleGetTweetsByIds cl sign args = (.ok d, tr)) : d.isSome = true := by
  unfold handleGetTweetsByIds at h
  rcases hA : cl.get_tweets_by_ids ((hget args "tweetIds").getD "") with e | ts
  · simp [hA] at h
  · simp [hA] at h
    obtain ⟨h1, h2⟩ := h
    subst h1
    rfl

theorem handleGetRetweets_ok_data (cl : StubClient)
    (sign : String → String → Except String String) (args : Headers)
    (d : Option JsonVal) (tr : List Call)
    (h : handleGetRetweets cl sign args = (.ok d, tr)) : d.isSome = true := by
  unfold handleGetRetweets at h
  rcases hA : cl.get_retweeters (hget args "tweetId")
      ((hget args "maxResults").getD "20") with e | us
  · simp [hA] at h
  · simp [hA] at h
    obtain ⟨h1, h2⟩ := h
    subst h1
    rfl

theorem handleFollowUser_ok_data (cl : StubClient)
    (sign : String → String → Except String String) (args : Headers)
    (d : Option JsonVal) (tr : List Call)
    (h : handleFollowUser cl sign args = (.ok d, tr)) : d.isSome = true := by
  unfold handleFollowUser at h
  rcases hA : cl.get_user_by_screen_name (hget args "username") with e | u
  · simp [hA] at h
  · rcases hB : cl.follow_user u.id with e | out
    · simp [hA, hB] at h
    · simp [hA, hB] at h
      obtain ⟨h1, h2⟩ := h
      subst h1
      rfl

theorem handleUnfollowUser_ok_data (cl : StubClient)
    (sign : String → String → Except String String) (args : Headers)
    (d : Option JsonVal) (tr : List Call)
    (h : handleUnfollowUser cl sign args = (.ok d, tr)) : d.isSome = true := by
  unfold handleUnfollowUser at h
  rcases hA : cl.get_user_by_screen_name (hget args "username") with e | u
  · simp [hA] at h
  · rcases hB : cl.unfollow_user u.id with e | out
    · simp [hA, hB] at h
    · simp [hA, hB] at h
      obtain ⟨h1, h2⟩ := h
      subst h1
      rfl

theorem runHandler_ok_data (cl : StubClient)
    (sign : String → String → Except String String) (a : String) (args : Headers)
    (d : Option JsonVal) (tr : List Call)
    (h : runHandler cl sign a args = (.ok d, tr)) (ha : a ∉ noDataActions) :
    d.isSome = true := by
  unfold runHandler at h
  by_cases k1 : a = "get_transaction_id"
  · rw [if_pos k1] at h
    exact handleGetTransactionId_ok_data cl sign args d tr h
  rw [if_neg k1] at h
  by_cases k2 : a = "postTweet"
  · rw [if_pos k2] at h
    exact handlePostTweet_ok_data cl sign args d tr h
  rw [if_neg k2] at h
  by_cases k3 : a = "postTweetWithMedia"
  · rw [if_pos k3] at h
    exact handlePostTweetWithMedia_ok_data cl sign args d tr h
  rw [if_neg k3] at h
  by_cases k4 : a = "likeTweet"
  · subst k4; simp [noDataActions] at ha
  rw [if_neg k4] at h
  by_cases k5 : a = "unlikeTweet"
  · subst k5; simp [noDataActions] at ha
  rw [if_neg k5] at h
  by_cases k6 : a = "getLikedTweets"
  · rw [if_pos k6] at h
    exact handleGetLikedTweets_ok_data cl sign args d tr h
  rw [if_neg k6] at h
  by_cases k7 : a = "searchTweets"
  · rw [if_pos k7] at h
    exact handleSearchTweets_ok_data cl sign args d tr h
  rw [if_neg k7] at h
  by_cases k8 : a = "replyToTweet"
  · rw [if_pos k8] at h
    exact handleReplyToTweet_ok_data cl sign args d tr h
  rw [if_neg k8] at h
  by_cases k9 : a = "getUserTimeline"
  · rw [if_pos k9] at h
    exact handleGetUserTimeline_ok_data cl sign args d tr h
  rw [if_neg k9] at h
  by_cases k10 : a = "getTweetById"
  · rw [if_pos k10] at h
    exact handleGetTweetById_ok_data cl sign args d tr h
  rw [if_neg k10] at h
  by_cases k11 : a = "getUserInfo"
  · rw [if_pos k11] at h
    exact handleGetUserInfo_ok_data cl sign args d tr h
  rw [if_neg k11] at h
  by_cases k12 : a = "getTweetsByIds"
  · rw [if_pos k12] at h
    exact handleGetTweetsByIds_ok_data cl sign args d tr h
  rw [if_neg k12] at h
  by_cases k13 : a = "retweet"
  · subst k13; simp [noDataActions] at ha
  rw [if_neg k13] at h
  by_cases k14 : a = "undoRetweet"
  · subst k14; simp [noDataActions] at ha
  rw [if_neg k14] at h
  by_cases k15 : a = "getRetweets"
  · rw [if_pos k15] at h
    exact handleGetRetweets_ok_data cl sign args d tr h
  rw [if_neg k15] at h
  by_cases k16 : a = "followUser"
  · rw [if_pos k16] at h
    exact handleFollowUser_ok_data cl sign args d tr h
  rw [if_neg k16] at h
  by_cases k17 : a = "unfollowUser"
  · rw [if_pos k17] at h
    exact handleUnfollowUser_ok_data cl sign args d tr h
  rw [if_neg k17] at h
  by_cases k18 : a = "deleteTweet"
  · subst k18; simp [noDataActions] at ha
  rw [if_neg k18] at h
  simp at h

/-- Counterexample to C6: a successful likeTweet Result has `success = true`
but carries no `data` field, refuting "data present iff success". -/
theorem C6_counterexample :
    (processCommand stubOkClient signOk
        ⟨.jnum 9, some "likeTweet", [("tweetId", "55")]⟩).1.success = true ∧
    (processCommand stubOkClient signOk
        ⟨.jnum 9, some "likeTweet", [("tweetId", "55")]⟩).1.data = none := by
  exact ⟨by decide, by decide⟩

theorem handleLikeTweet_ok_none (cl : StubClient)
    (sign : String → String → Except String String) (args : Headers)
    (d : Option JsonVal) (tr : List Call)
    (h : handleLikeTweet cl sign args = (.ok d, tr)) : d = none := by
  unfold handleLikeTweet at h
  rcases hA : hget args "tweetId" with _ | tid
  · simp [hA] at h
  · rcases hB : sign "POST" (urlPath FAVORITE_TWEET) with e | tk
    · simp [hA, hB] at h
    · rcases hC : cl.favorite_tweet (some tid) with e | u
      · simp [hA, hB, hC] at h
      · simp [hA, hB, hC] at h
        obtain ⟨h1, h2⟩ := h
        subst h1
        rfl

theorem handleUnlikeTweet_ok_none (cl : StubClient)
    (sign : String → String → Except String String) (args : Headers)
    (d : Option JsonVal) (tr : List Call)
    (h : handleUnlikeTweet cl sign args = (.ok d, tr)) : d = none := by
  unfold handleUnlikeTweet at h
  rcases hA : hget args "tweetId" with _ | tid
  · simp [hA] at h
  · rcases hB : sign "POST" (urlPath UNFAVORITE_TWEET) with e | tk
    · simp [hA, hB] at h
    · rcases hC : cl.unfavorite_tweet (some tid) with e | u
      · simp [hA, hB, hC] at h
      · simp [hA, hB, hC] at h
        obtain ⟨h1, h2⟩ := h
        subst h1
        rfl

theorem handleRetweet_ok_none (cl : StubClient)
    (sign : String → String → Except String String) (args : Headers)
    (d : Option JsonVal) (tr : List Call)
    (h : handleRetweet cl sign args = (.ok d, tr)) : d = none := by
  unfold handleRetweet at h
  rcases hA : sign "POST" (urlPath RETWEET) with e | tk
  · simp [hA] at h
  · rcases hB : cl.retweet (hget args "tweetId") with e | u
    · simp [hA, hB] at h
    · simp [hA, hB] at h
      obtain ⟨h1, h2⟩ := h
      subst h1
      rfl

theorem handleUndoRetweet_ok_none (cl : StubClient)
    (sign : String → String → Except String String) (args : Headers)
    (d : Option JsonVal) (tr : List Call)
    (h : handleUndoRetweet cl sign args = (.ok d, tr)) : d = none := by
  unfold handleUndoRetweet at h
  rcases hA : sign "POST" (urlPath DELETE_RETWEET) with e | tk
  · simp [hA] at h
  · rcases hB : cl.delete_retweet (hget args "tweetId") with e | u
    · simp [hA, hB] at h
    · simp [hA, hB] at h
      obtain ⟨h1, h2⟩ := h
      subst h1
      rfl

theorem handleDeleteTweet_ok_none (cl : StubClient)
    (sign : String → String → Except String String) (args : Headers)
    (d : Option JsonVal) (tr : List Call)
    (h : handleDeleteTweet cl sign args = (.ok d, tr)) : d = none := by
  unfold handleDeleteTweet at h
  rcases hA : cl.delete_tweet (hget args "tweetId") with e | u
  · simp [hA] at h
  · simp [hA] at h
    obtain ⟨h1, h2⟩ := h
    subst h1
    rfl

/-- C6 (amended): for every emitted Result the `error` field is present
exactly when `success` is false, and the `data` field is present only when
`success` is true (both unconditionally, for every command); `success`
moreover implies a `data` field for every action outside likeTweet,
unlikeTweet, retweet, undoRetweet and deleteTweet, while for each of those
five actions every success Result omits the `data` key. -/
theorem C6_amended (cl : StubClient) (sign : String → String → Except String String)
    (c c2 : Command) (i : JId) (a : String) (args : Headers)
    (hno : ∀ a', c2.action = some a' → a' ∉ noDataActions)
    (ha : a ∈ noDataActions) :
    ((processCommand cl sign c).1.error.isSome = true ↔
      (processCommand cl sign c).1.success = false) ∧
    ((processCommand cl sign c).1.data.isSome = true →
      (processCommand cl sign c).1.success = true) ∧
    ((processCommand cl sign c2).1.success = true →
      (processCommand cl sign c2).1.data.isSome = true) ∧
    ((processCommand cl sign ⟨i, some a, args⟩).1.success = true →
      (processCommand cl sign ⟨i, some a, args⟩).1.data = none) := by
  refine ⟨?_, ?_, ?_, ?_⟩
  · rcases c with ⟨ci, act, cargs⟩
    cases act with
    | none => simp [processCommand]
    | some a' =>
      by_cases ha' : a' = ""
      · simp [processCommand, ha']
      · simp only [processCommand]
        rw [if_neg ha']
        cases hq : runHandler cl sign a' cargs with
        | mk r tr => cases r <;> simp
  · rcases c with ⟨ci, act, cargs⟩
    cases act with
    | none => simp [processCommand]
    | some a' =>
      by_cases ha' : a' = ""
      · simp [processCommand, ha']
      · simp only [processCommand]
        rw [if_neg ha']
        cases hq : runHandler cl sign a' cargs with
        | mk r tr => cases r <;> simp
  · rcases c2 with ⟨ci, act, cargs⟩
    cases act with
    | none => simp [processCommand]
    | some a' =>
      by_cases ha' : a' = ""
      · simp [processCommand, ha']
      · simp only [processCommand]
        rw [if_neg ha']
        cases hq : runHandler cl sign a' cargs with
        | mk r tr =>
          cases r with
          | ok d =>
            intro _
            exact runHandler_ok_data cl sign a' cargs d tr hq (hno a' rfl)
          | error e => simp
  · simp only [noDataActions, List.mem_cons, List.not_mem_nil, or_false] at ha
    rcases ha with rfl | rfl | rfl | rfl | rfl
    · intro hs
      have hchain : runHandler cl sign "likeTweet" args = handleLikeTweet cl sign args := rfl
      cases hq : handleLikeTweet cl sign args with
      | mk r tr =>
        cases r with
        | ok d =>
          have hP : processCommand cl sign ⟨i, some "likeTweet", args⟩ =
              (⟨i, true, d, none⟩, tr) := by
            simp [processCommand, hchain, hq]
          rw [hP]
          exact handleLikeTweet_ok_none cl sign args d tr hq
        | error e =>
          have hP : processCommand cl sign ⟨i, some "likeTweet", args⟩ =
              (⟨i, false, none, some e⟩, tr) := by
            simp [processCommand, hchain, hq]
          rw [hP] at hs
          simp at hs
    · intro hs
      have hchain : runHandler cl sign "unlikeTweet" args = handleUnlikeTweet cl sign args := rfl
      cases hq : handleUnlikeTweet cl sign args with
      | mk r tr =>
        cases r with
        | ok d =>
          have hP : processCommand cl sign ⟨i, some "unlikeTweet", args⟩ =
              (⟨i, true, d, none⟩, tr) := by
            simp [processCommand, hchain, hq]
          rw [hP]
          exact handleUnlikeTweet_ok_none cl sign args d tr hq
        | error e =>
          have hP : processCommand cl sign ⟨i, some "unlikeTweet", args⟩ =
              (⟨i, false, none, some e⟩, tr) := by
            simp [processCommand, hchain, hq]
          rw [hP] at hs
          simp at hs
    · intro hs
      have hchain : runHandler cl sign "retweet" args = handleRetweet cl sign args := rfl
      cases hq : handleRetweet cl sign args with
      | mk r tr =>
        cases r with
        | ok d =>
          have hP : processCommand cl sign ⟨i, some "retweet", args⟩ =
              (⟨i, true, d, none⟩, tr) := by
            simp [processCommand, hchain, hq]
          rw [hP]
          exact handleRetweet_ok_none cl sign args d tr hq
        | error e =>
          have hP : processCommand cl sign ⟨i, some "retweet", args⟩ =
              (⟨i, false, none, some e⟩, tr) := by
            simp [processCommand, hchain, hq]
          rw [hP] at hs
          simp at hs
    · intro hs
      have hchain : runHandler cl sign "undoRetweet" args = handleUndoRetweet cl sign args := rfl
      cases hq : handleUndoRetweet cl sign args with
      | mk r tr =>
        cases r with
        | ok d =>
          have hP : processCommand cl sign ⟨i, some "undoRetweet", args⟩ =
              (⟨i, true, d, none⟩, tr) := by
            simp [processCommand, hchain, hq]
          rw [hP]
          exact handleUndoRetweet_ok_none cl sign args d tr hq
        | error e =>
          have hP : processCommand cl sign ⟨i, some "undoRetweet", args⟩ =
              (⟨i, false, none, some e⟩, tr) := by
            simp [processCommand, hchain, hq]
          rw [hP] at hs
          simp at hs
    · intro hs
      have hchain : runHandler cl sign "deleteTweet" args = handleDeleteTweet cl sign args := rfl
      cases hq : handleDeleteTweet cl sign args with
      | mk r tr =>
        cases r with
        | ok d =>
          have hP : processCommand cl sign ⟨i, some "deleteTweet", args⟩ =
              (⟨i, true, d, none⟩, tr) := by
            simp [processCommand, hchain, hq]
          rw [hP]
          exact handleDeleteTweet_ok_none cl sign args d tr hq
        | error e =>
          have hP : processCommand cl sign ⟨i, some "deleteTweet", args⟩ =
              (⟨i, false, none, some e⟩, tr) := by
            simp [processCommand, hchain, hq]
          rw [hP] at hs
          simp at hs

/-- Witness for C6 (amended): the unconditional parts at a likeTweet command,
the success-implies-data part at a postTweet command, and the omit-data part
at a deleteTweet command. -/
theorem C6_amended_witness :
    ((processCommand stubOkClient signOk
        ⟨.jnum 9, some "likeTweet", [("tweetId", "55")]⟩).1.error.isSome = true ↔
      (processCommand stubOkClient signOk
        ⟨.jnum 9, some "likeTweet", [("tweetId", "55")]⟩).1.success = false) ∧
    ((processCommand stubOkClient signOk
        ⟨.jnum 9, some "likeTweet", [("tweetId", "55")]⟩).1.data.isSome = true →
      (processCommand stubOkClient signOk
        ⟨.jnum 9, some "likeTweet", [("tweetId", "55")]⟩).1.success = true) ∧
    ((processCommand stubOkClient signOk
        ⟨.jnum 1, some "postTweet", [("text", "hi")]⟩).1.success = true →
      (processCommand stubOkClient signOk
        ⟨.jnum 1, some "postTweet", [("text", "hi")]⟩).1.data.isSome = true) ∧
    ((processCommand stubOkClient signOk
        ⟨.jnum 7, some "deleteTweet", [("tweetId", "1")]⟩).1.success = true →
      (processCommand stubOkClient signOk
        ⟨.jnum 7, some "deleteTweet", [("tweetId", "1")]⟩).1.data = none) := by
  have H := C6_amended stubOkClient signOk
    ⟨.jnum 9, some "likeTweet", [("tweetId", "55")]⟩
    ⟨.jnum 1, some "postTweet", [("text", "hi")]⟩
    (.jnum 7) "deleteTweet" [("tweetId", "1")]
    (by intro a' ha'; simp only [Option.some.injEq] at ha'; subst ha'; decide)
    (by decide)
  exact H


/-- Counterexample to C7: the bridge's unknown-action message is capitalized;
`{"id":2,"action":"bogus","args":{}}` yields the error `Unknown action
'bogus'`, not `unknown action 'bogus'` as the claim states. -/
theorem C7_counterexample :
    (processCommand stubOkClient signOk ⟨.jnum 2, some "bogus", []⟩).1 =
      ⟨.jnum 2, false, none, some "Unknown action 'bogus'"⟩ ∧
    ("Unknown action 'bogus'" : String) ≠ "unknown action 'bogus'" := by
  exact ⟨by decide, by decide⟩

/-- C7 (amended): a parsed Command whose non-empty action is not in the
dispatch chain yields exactly
`{id, success:false, error:"Unknown action '<action>'"}` (capital U) with the
action name interpolated and no signer or PlatformClient invocation (an empty
action instead yields the missing-action error). -/
theorem C7_amended (cl : StubClient) (sign : String → String → Except String String)
    (i : JId) (args : Headers) (a : String)
    (ha : a ∉ registeredActions) (hne : a ≠ "") :
    processCommand cl sign ⟨i, some a, args⟩ =
      (⟨i, false, none, some ("Unknown action '" ++ a ++ "'")⟩, []) := by
  simp only [registeredActions, List.mem_cons, List.not_mem_nil, or_false, not_or] at ha
  obtain ⟨n1, n2, n3, n4, n5, n6, n7, n8, n9, n10, n11, n12, n13, n14, n15,
    n16, n17, n18⟩ := ha
  have hr : runHandler cl sign a args =
      (.error ("Unknown action '" ++ a ++ "'"), []) := by
    unfold runHandler
    rw [if_neg n1, if_neg n2, if_neg n3, if_neg n4, if_neg n5, if_neg n6,
      if_neg n7, if_neg n8, if_neg n9, if_neg n10, if_neg n11, if_neg n12,
      if_neg n13, if_neg n14, if_neg n15, if_neg n16, if_neg n17, if_neg n18]
  simp only [processCommand]
  rw [if_neg hne, hr]

/-- Witness for C7 (amended) at the concrete action name `zzz`. -/
theorem C7_amended_witness :
    processCommand stubOkClient signOk ⟨.jstr "x", some "zzz", []⟩ =
      (⟨.jstr "x", false, none, some ("Unknown action '" ++ "zzz" ++ "'")⟩, []) :=
  C7_amended stubOkClient signOk (.jstr "x") [] "zzz" (by decide) (by decide)

/-- Counterexample to C8: the bridge's get_transaction_id action passes the
caller's method string verbatim to the signer; with method `post` the signer
receives `post`, although the upper-cased method would be `POST`. -/
theorem C8_counterexample :
    (processCommand stubOkClient signOk ⟨.jnum 5, some "get_transaction_id",
        [("url", "https://x.com/i/api/1.1/jot/client_event.json?q=1#frag"),
         ("method", "post")]⟩).2 =
      [Call.sign "post" "/i/api/1.1/jot/client_event.json"] ∧
    strUpper "post" = "POST" ∧ ("post" : String) ≠ "POST" := by
  exact ⟨by decide, by decide, by decide⟩

/-- C8 (amended): every signer invocation receives the normalized path (host,
query string and fragment stripped) and the signer's output is used verbatim;
the ClientPatcher middleware upper-cases the method and the fixed handler
sites pass the literal `POST`, but the bridge's get_transaction_id action
passes the caller-supplied method string verbatim, without upper-casing. -/
theorem C8_amended (sign : String → String → Except String String)
    (b c : Headers) (m u : String) (hu : isGraphqlUrl u = true)
    (cl : StubClient) (i : JId) (url method tid : String)
    (hsig : sign method (urlPath url) = .ok tid)
    (args : Headers) (text : String) (htext : hget args "text" = some text) :
    (patcherRequest sign b c m u).signCalls = [(strUpper m, urlPath u)] ∧
    (∀ tok, sign (strUpper m) (urlPath u) = .ok tok →
      (patcherRequest sign b c m u).sent =
        some (m, u, hset (mergeHeaders b c) "x-client-transaction-id" tok)) ∧
    (processCommand cl sign ⟨i, some "get_transaction_id",
        [("url", url), ("method", method)]⟩).2 = [Call.sign method (urlPath url)] ∧
    (processCommand cl sign ⟨i, some "get_transaction_id",
        [("url", url), ("method", method)]⟩).1 = ⟨i, true, some (.jstr tid), none⟩ ∧
    ((processCommand cl sign ⟨i, some "postTweet", args⟩).2).head? =
      some (.sign "POST" (urlPath CREATE_TWEET)) := by
  have hargs1 : hget [("url", url), ("method", method)] "url" = some url := rfl
  have hargs2 : hget [("url", url), ("method", method)] "method" = some method := by
    simp [hget]
  have hh : handleGetTransactionId cl sign [("url", url), ("method", method)] =
      (.ok (some (.jstr tid)), [.sign method (urlPath url)]) := by
    unfold handleGetTransactionId
    simp only [hargs1, hargs2, hsig]
  have hchain : runHandler cl sign "get_transaction_id" [("url", url), ("method", method)] =
      handleGetTransactionId cl sign [("url", url), ("method", method)] := rfl
  have hP : processCommand cl sign ⟨i, some "get_transaction_id",
      [("url", url), ("method", method)]⟩ =
      (⟨i, true, some (.jstr tid), none⟩, [.sign method (urlPath url)]) := by
    simp [processCommand, hchain, hh]
  refine ⟨?_, ?_, ?_, ?_, ?_⟩
  · unfold patcherRequest
    rw [if_pos hu]
    rcases hs : sign (strUpper m) (urlPath u) with e | t <;> simp [hs]
  · intro tok htok
    unfold patcherRequest
    rw [if_pos hu, htok]
  · rw [hP]
  · rw [hP]
  · have hchain2 : runHandler cl sign "postTweet" args = handlePostTweet cl sign args := rfl
    rcases hs2 : sign "POST" (urlPath CREATE_TWEET) with e2 | tk2
    · have hh2 : handlePostTweet cl sign args =
          (.error e2, [.sign "POST" (urlPath CREATE_TWEET)]) := by
        unfold handlePostTweet
        simp only [htext, hs2]
      simp [processCommand, hchain2, hh2]
    · rcases hs3 : cl.create_tweet (some text) [] none with e3 | t3
      · have hh2 : handlePostTweet cl sign args = (.error e3,
            [.sign "POST" (urlPath CREATE_TWEET), .create_tweet (some text) [] none]) := by
          unfold handlePostTweet
          simp only [htext, hs2, hs3]
        simp [processCommand, hchain2, hh2]
      · have hh2 : handlePostTweet cl sign args =
            (.ok (some (.jobj [("tweetId", t3.id)])),
            [.sign "POST" (urlPath CREATE_TWEET), .create_tweet (some text) [] none]) := by
          unfold handlePostTweet
          simp only [htext, hs2, hs3]
        simp [processCommand, hchain2, hh2]

/-- Witness for C8 (amended) at concrete inputs. -/
theorem C8_amended_witness :
    (patcherRequest signOk [("Cookie", "a=b")] [] "get"
        "https://x.com/i/api/graphql/Q/TweetDetail?v=1").signCalls =
      [(strUpper "get", urlPath "https://x.com/i/api/graphql/Q/TweetDetail?v=1")] ∧
    (patcherRequest signOk [("Cookie", "a=b")] [] "get"
        "https://x.com/i/api/graphql/Q/TweetDetail?v=1").sent =
      some ("get", "https://x.com/i/api/graphql/Q/TweetDetail?v=1",
        hset (mergeHeaders [("Cookie", "a=b")] []) "x-client-transaction-id"
          "tok|GET|/i/api/graphql/Q/TweetDetail") ∧
    (processCommand stubOkClient signOk ⟨.jnum 6, some "get_transaction_id",
        [("url", "https://x.com/i/api/1.1/jot/client_event.json?q=1#frag"),
         ("method", "post")]⟩).2 =
      [Call.sign "post" (urlPath "https://x.com/i/api/1.1/jot/client_event.json?q=1#frag")] ∧
    (processCommand stubOkClient signOk ⟨.jnum 6, some "get_transaction_id",
        [("url", "https://x.com/i/api/1.1/jot/client_event.json?q=1#frag"),
         ("method", "post")]⟩).1 =
      ⟨.jnum 6, true, some (.jstr "tok|post|/i/api/1.1/jot/client_event.json"), none⟩ ∧
    ((processCommand stubOkClient signOk
        ⟨.jnum 6, some "postTweet", [("text", "hi")]⟩).2).head? =
      some (.sign "POST" (urlPath CREATE_TWEET)) := by
  have H := C8_amended signOk [("Cookie", "a=b")] [] "get"
    "https://x.com/i/api/graphql/Q/TweetDetail?v=1" (by decide)
    stubOkClient (.jnum 6) "https://x.com/i/api/1.1/jot/client_event.json?q=1#frag"
    "post" "tok|post|/i/api/1.1/jot/client_event.json" rfl
    [("text", "hi")] "hi" (by decide)
  exact ⟨H.1, H.2.1 "tok|GET|/i/api/graphql/Q/TweetDetail" rfl,
    H.2.2.1, H.2.2.2.1, H.2.2.2.2⟩

/-- Counterexample to C9: a getTweetById Command with empty args is not
rejected with a validation error; the PlatformClient call is attempted anyway
with a null argument (and here succeeds). -/
theorem C9_counterexample :
    processCommand stubOkClient signOk ⟨.jnum 3, some "getTweetById", []⟩ =
      (⟨.jnum 3, true, some (.jobj [("tweetId", "T1"), ("text", "TXT")]), none⟩,
       [Call.get_tweet_by_id none]) := by
  decide

/-- C9 (amended): only postTweet, postTweetWithMedia, likeTweet, unlikeTweet,
replyToTweet and get_transaction_id validate required argument keys, failing
with a validation error before any signer or PlatformClient invocation; every
remaining registered action - getTweetById, deleteTweet, retweet, searchTweets,
getUserInfo, getLikedTweets, getUserTimeline, getTweetsByIds, undoRetweet,
getRetweets, followUser and unfollowUser - performs no such validation and
passes missing arguments straight through (as null or the source's defaults)
into the PlatformClient call (for retweet and undoRetweet, as soon as the
preceding signer call succeeds; for followUser and unfollowUser the first
client call receives the missing username directly). -/
theorem C9_amended (cl : StubClient) (sign : String → String → Except String String)
    (i : JId) (args : Headers) :
    (hget args "text" = none →
      processCommand cl sign ⟨i, some "postTweet", args⟩ =
        (⟨i, false, none, some "Missing 'text' for postTweet"⟩, [])) ∧
    (hget args "tweetId" = none →
      processCommand cl sign ⟨i, some "likeTweet", args⟩ =
        (⟨i, false, none, some "Missing 'tweetId' for likeTweet"⟩, [])) ∧
    (hget args "tweetId" = none →
      processCommand cl sign ⟨i, some "unlikeTweet", args⟩ =
        (⟨i, false, none, some "Missing 'tweetId' for unlikeTweet"⟩, [])) ∧
    (hget args "tweetId" = none ∨ hget args "text" = none →
      processCommand cl sign ⟨i, some "replyToTweet", args⟩ =
        (⟨i, false, none, some "Missing arguments for replyToTweet"⟩, [])) ∧
    (hget args "text" = none ∨ hget args "mediaPath" = none ∨
        hget args "mediaType" = none →
      processCommand cl sign ⟨i, some "postTweetWithMedia", args⟩ =
        (⟨i, false, none, some "Missing arguments for postTweetWithMedia"⟩, [])) ∧
    (hget args "url" = none ∨ hget args "method" = none →
      processCommand cl sign ⟨i, some "get_transaction_id", args⟩ =
        (⟨i, false, none,
          some "Missing 'url' or 'method' for get_transaction_id action"⟩, [])) ∧
    ((processCommand cl sign ⟨i, some "getTweetById", args⟩).2 =
      [Call.get_tweet_by_id (hget args "tweetId")]) ∧
    ((processCommand cl sign ⟨i, some "deleteTweet", args⟩).2 =
      [Call.delete_tweet (hget args "tweetId")]) ∧
    ((processCommand cl sign ⟨i, some "searchTweets", args⟩).2 =
      [Call.search_tweet (hget args "query") "Top" ((hget args "maxResults").getD "20")]) ∧
    ((processCommand cl sign ⟨i, some "getUserInfo", args⟩).2 =
      [Call.get_user_by_screen_name (hget args "username")]) ∧
    ((processCommand cl sign ⟨i, some "getLikedTweets", args⟩).2 =
      [Call.get_user_tweets (hget args "userId") "Likes"
        ((hget args "maxResults").getD "20")]) ∧
    ((processCommand cl sign ⟨i, some "getUserTimeline", args⟩).2 =
      [Call.get_user_tweets (hget args "userId") "Tweets"
        ((hget args "maxResults").getD "20")]) ∧
    ((processCommand cl sign ⟨i, some "getTweetsByIds", args⟩).2 =
      [Call.get_tweets_by_ids ((hget args "tweetIds").getD "")]) ∧
    ((processCommand cl sign ⟨i, some "getRetweets", args⟩).2 =
      [Call.get_retweeters (hget args "tweetId") ((hget args "maxResults").getD "20")]) ∧
    (∀ tk, sign "POST" (urlPath RETWEET) = .ok tk →
      (processCommand cl sign ⟨i, some "retweet", args⟩).2 =
        [Call.sign "POST" (urlPath RETWEET), Call.retweet (hget args "tweetId")]) ∧
    (∀ tk, sign "POST" (urlPath DELETE_RETWEET) = .ok tk →
      (processCommand cl sign ⟨i, some "undoRetweet", args⟩).2 =
        [Call.sign "POST" (urlPath DELETE_RETWEET),
         Call.delete_retweet (hget args "tweetId")]) ∧
    ((processCommand cl sign ⟨i, some "followUser", args⟩).2.head? =
      some (Call.get_user_by_screen_name (hget args "username"))) ∧
    ((processCommand cl sign ⟨i, some "unfollowUser", args⟩).2.head? =
      some (Call.get_user_by_screen_name (hget args "username"))) := by
  refine ⟨?_, ?_, ?_, ?_, ?_, ?_, ?_, ?_, ?_, ?_, ?_, ?_, ?_, ?_, ?_, ?_, ?_, ?_⟩
  · intro hA
    have hh : handlePostTweet cl sign args = (.error "Missing 'text' for postTweet", []) := by
      unfold handlePostTweet
      simp only [hA]
    have hchain : runHandler cl sign "postTweet" args = handlePostTweet cl sign args := rfl
    simp [processCommand, hchain, hh]
  · intro hA
    have hh : handleLikeTweet cl sign args =
        (.error "Missing 'tweetId' for likeTweet", []) := by
      unfold handleLikeTweet
      simp only [hA]
    have hchain : runHandler cl sign "likeTweet" args = handleLikeTweet cl sign args := rfl
    simp [processCommand, hchain, hh]
  · intro hA
    have hh : handleUnlikeTweet cl sign args =
        (.error "Missing 'tweetId' for unlikeTweet", []) := by
      unfold handleUnlikeTweet
      simp only [hA]
    have hchain : runHandler cl sign "unlikeTweet" args = handleUnlikeTweet cl sign args := rfl
    simp [processCommand, hchain, hh]
  · intro hor
    have hchain : runHandler cl sign "replyToTweet" args = handleReplyToTweet cl sign args := rfl
    have hh : handleReplyToTweet cl sign args =
        (.error "Missing arguments for replyToTweet", []) := by
      unfold handleReplyToTweet
      rcases hor with hA | hB
      · simp only [hA]
      · rcases hT : hget args "tweetId" with _ | tid
        · simp only [hT]
        · simp only [hT, hB]
    simp [processCommand, hchain, hh]
  · intro hor
    have hchain : runHandler cl sign "postTweetWithMedia" args =
        handlePostTweetWithMedia cl sign args := rfl
    have hh : handlePostTweetWithMedia cl sign args =
        (.error "Missing arguments for postTweetWithMedia", []) := by
      unfold handlePostTweetWithMedia
      rcases hor with hA | hB | hC
      · simp only [hA]
      · rcases hT : hget args "text" with _ | text
        · simp only [hT]
        · simp only [hT, hB]
      · rcases hT : hget args "text" with _ | text
        · simp only [hT]
        · rcases hM : hget args "mediaPath" with _ | mp
          · simp only [hT, hM]
          · simp only [hT, hM, hC]
    simp [processCommand, hchain, hh]
  · intro hor
    have hchain : runHandler cl sign "get_transaction_id" args =
        handleGetTransactionId cl sign args := rfl
    have hh : handleGetTransactionId cl sign args =
        (.error "Missing 'url' or 'method' for get_transaction_id action", []) := by
      unfold handleGetTransactionId
      rcases hor with hA | hB
      · simp only [hA]
      · rcases hU : hget args "url" with _ | u
        · simp only [hU]
        · simp only [hU, hB]
    simp [processCommand, hchain, hh]
  · have hchain : runHandler cl sign "getTweetById" args = handleGetTweetById cl sign args := rfl
    rcases hA : cl.get_tweet_by_id (hget args "tweetId") with e | t
    · have hh : handleGetTweetById cl sign args =
          (.error e, [.get_tweet_by_id (hget args "tweetId")]) := by
        unfold handleGetTweetById
        simp only [hA]
      simp [processCommand, hchain, hh]
    · have hh : handleGetTweetById cl sign args =
          (.ok (some (.jobj [("tweetId", t.id), ("text", t.text)])),
           [.get_tweet_by_id (hget args "tweetId")]) := by
        unfold handleGetTweetById
        simp only [hA]
      simp [processCommand, hchain, hh]
  · have hchain : runHandler cl sign "deleteTweet" args = handleDeleteTweet cl sign args := rfl
    rcases hA : cl.delete_tweet (hget args "tweetId") with e | t
    · have hh : handleDeleteTweet cl sign args =
          (.error e, [.delete_tweet (hget args "tweetId")]) := by
        unfold handleDeleteTweet
        simp only [hA]
      simp [processCommand, hchain, hh]
    · have hh : handleDeleteTweet cl sign args =
          (.ok none, [.delete_tweet (hget args "tweetId")]) := by
        unfold handleDeleteTweet
        simp only [hA]
      simp [processCommand, hchain, hh]
  · have hchain : runHandler cl sign "searchTweets" args = handleSearchTweets cl sign args := rfl
    rcases hA : cl.search_tweet (hget args "query") "Top"
        ((hget args "maxResults").getD "20") with e | ts
    · have hh : handleSearchTweets cl sign args =
          (.error e,
           [.search_tweet (hget args "query") "Top" ((hget args "maxResults").getD "20")]) := by
        unfold handleSearchTweets
        simp only [hA]
      simp [processCommand, hchain, hh]
    · have hh : handleSearchTweets cl sign args =
          (.ok (some (.jlist (ts.map Tweet.id))),
           [.search_tweet (hget args "query") "Top" ((hget args "maxResults").getD "20")]) := by
        unfold handleSearchTweets
        simp only [hA]
      simp [processCommand, hchain, hh]
  · have hchain : runHandler cl sign "getUserInfo" args = handleGetUserInfo cl sign args := rfl
    rcases hA : cl.get_user_by_screen_name (hget args "username") with e | u
    · have hh : handleGetUserInfo cl sign args =
          (.error e, [.get_user_by_screen_name (hget args "username")]) := by
        unfold handleGetUserInfo
        simp only [hA]
      simp [processCommand, hchain, hh]
    · have hh : handleGetUserInfo cl sign args =
          (.ok (some (.jobj [("userId", u.id), ("username", u.screen_name)])),
           [.get_user_by_screen_name (hget args "username")]) := by
        unfold handleGetUserInfo
        simp only [hA]
      simp [processCommand, hchain, hh]
  · have hchain : runHandler cl sign "getLikedTweets" args =
        handleGetLikedTweets cl sign args := rfl
    rcases hA : cl.get_user_tweets (hget args "userId") "Likes"
        ((hget args "maxResults").getD "20") with e | ts
    · have hh : handleGetLikedTweets cl sign args =
          (.error e, [.get_user_tweets (hget args "userId") "Likes"
            ((hget args "maxResults").getD "20")]) := by
        unfold handleGetLikedTweets
        simp only [hA]
      simp [processCommand, hchain, hh]
    · have hh : handleGetLikedTweets cl sign args =
          (.ok (some (.jlist (ts.map Tweet.id))),
           [.get_user_tweets (hget args "userId") "Likes"
             ((hget args "maxResults").getD "20")]) := by
        unfold handleGetLikedTweets
        simp only [hA]
      simp [processCommand, hchain, hh]
  · have hchain : runHandler cl sign "getUserTimeline" args =
        handleGetUserTimeline cl sign args := rfl
    rcases hA : cl.get_user_tweets (hget args "userId") "Tweets"
        ((hget args "maxResults").getD "20") with e | ts
    · have hh : handleGetUserTimeline cl sign args =
          (.error e, [.get_user_tweets (hget args "userId") "Tweets"
            ((hget args "maxResults").getD "20")]) := by
        unfold handleGetUserTimeline
        simp only [hA]
      simp [processCommand, hchain, hh]
    · have hh : handleGetUserTimeline cl sign args =
          (.ok (some (.jlist (ts.map Tweet.id))),
           [.get_user_tweets (hget args "userId") "Tweets"
             ((hget args "maxResults").getD "20")]) := by
        unfold handleGetUserTimeline
        simp only [hA]
      simp [processCommand, hchain, hh]
  · have hchain : runHandler cl sign "getTweetsByIds" args =
        handleGetTweetsByIds cl sign args := rfl
    rcases hA : cl.get_tweets_by_ids ((hget args "tweetIds").getD "") with e | ts
    · have hh : handleGetTweetsByIds cl sign args =
          (.error e, [.get_tweets_by_ids ((hget args "tweetIds").getD "")]) := by
        unfold handleGetTweetsByIds
        simp only [hA]
      simp [processCommand, hchain, hh]
    · have hh : handleGetTweetsByIds cl sign args =
          (.ok (some (.jlist (ts.map Tweet.id))),
           [.get_tweets_by_ids ((hget args "tweetIds").getD "")]) := by
        unfold handleGetTweetsByIds
        simp only [hA]
      simp [processCommand, hchain, hh]
  · have hchain : runHandler cl sign "getRetweets" args = handleGetRetweets cl sign args := rfl
    rcases hA : cl.get_retweeters (hget args "tweetId")
        ((hget args "maxResults").getD "20") with e | us
    · have hh : handleGetRetweets cl sign args =
          (.error e, [.get_retweeters (hget args "tweetId")
            ((hget args "maxResults").getD "20")]) := by
        unfold handleGetRetweets
        simp only [hA]
      simp [processCommand, hchain, hh]
    · have hh : handleGetRetweets cl sign args =
          (.ok (some (.jlist (us.map User.id))),
           [.get_retweeters (hget args "tweetId") ((hget args "maxResults").getD "20")]) := by
        unfold handleGetRetweets
        simp only [hA]
      simp [processCommand, hchain, hh]
  · intro tk htk
    have hchain : runHandler cl sign "retweet" args = handleRetweet cl sign args := rfl
    rcases hA : cl.retweet (hget args "tweetId") with e | u
    · have hh : handleRetweet cl sign args =
          (.error e, [.sign "POST" (urlPath RETWEET), .retweet (hget args "tweetId")]) := by
        unfold handleRetweet
        simp only [htk, hA]
      simp [processCommand, hchain, hh]
    · have hh : handleRetweet cl sign args =
          (.ok none, [.sign "POST" (urlPath RETWEET), .retweet (hget args "tweetId")]) := by
        unfold handleRetweet
        simp only [htk, hA]
      simp [processCommand, hchain, hh]
  · intro tk htk
    have hchain : runHandler cl sign "undoRetweet" args = handleUndoRetweet cl sign args := rfl
    rcases hA : cl.delete_retweet (hget args "tweetId") with e | u
    · have hh : handleUndoRetweet cl sign args =
          (.error e, [.sign "POST" (urlPath DELETE_RETWEET),
            .delete_retweet (hget args "tweetId")]) := by
        unfold handleUndoRetweet
        simp only [htk, hA]
      simp [processCommand, hchain, hh]
    · have hh : handleUndoRetweet cl sign args =
          (.ok none, [.sign "POST" (urlPath DELETE_RETWEET),
            .delete_retweet (hget args "tweetId")]) := by
        unfold handleUndoRetweet
        simp only [htk, hA]
      simp [processCommand, hchain, hh]
  · have hchain : runHandler cl sign "followUser" args = handleFollowUser cl sign args := rfl
    rcases hA : cl.get_user_by_screen_name (hget args "username") with e | u
    · have hh : handleFollowUser cl sign args =
          (.error e, [.get_user_by_screen_name (hget args "username")]) := by
        unfold handleFollowUser
        simp only [hA]
      simp [processCommand, hchain, hh]
    · rcases hB : cl.follow_user u.id with e | out
      · have hh : handleFollowUser cl sign args = (.error e,
            [.get_user_by_screen_name (hget args "username"), .follow_user u.id]) := by
          unfold handleFollowUser
          simp only [hA, hB]
        simp [processCommand, hchain, hh]
      · have hh : handleFollowUser cl sign args =
            (.ok (some (.jobj [("userId", out.id)])),
             [.get_user_by_screen_name (hget args "username"), .follow_user u.id]) := by
          unfold handleFollowUser
          simp only [hA, hB]
        simp [processCommand, hchain, hh]
  · have hchain : runHandler cl sign "unfollowUser" args = handleUnfollowUser cl sign args := rfl
    rcases hA : cl.get_user_by_screen_name (hget args "username") with e | u
    · have hh : handleUnfollowUser cl sign args =
          (.error e, [.get_user_by_screen_name (hget args "username")]) := by
        unfold handleUnfollowUser
        simp only [hA]
      simp [processCommand, hchain, hh]
    · rcases hB : cl.unfollow_user u.id with e | out
      · have hh : handleUnfollowUser cl sign args = (.error e,
            [.get_user_by_screen_name (hget args "username"), .unfollow_user u.id]) := by
          unfold handleUnfollowUser
          simp only [hA, hB]
        simp [processCommand, hchain, hh]
      · have hh : handleUnfollowUser cl sign args =
            (.ok (some (.jobj [("userId", out.id)])),
             [.get_user_by_screen_name (hget args "username"), .unfollow_user u.id]) := by
          unfold handleUnfollowUser
          simp only [hA, hB]
        simp [processCommand, hchain, hh]

/-- Witness for C9 (amended) with empty args: every validating action rejects,
and every non-validating registered action reaches its PlatformClient call
with null arguments or the source's defaults. -/
theorem C9_amended_witness :
    processCommand stubOkClient signOk ⟨.jnum 1, some "postTweet", []⟩ =
      (⟨.jnum 1, false, none, some "Missing 'text' for postTweet"⟩, []) ∧
    processCommand stubOkClient signOk ⟨.jnum 1, some "likeTweet", []⟩ =
      (⟨.jnum 1, false, none, some "Missing 'tweetId' for likeTweet"⟩, []) ∧
    processCommand stubOkClient signOk ⟨.jnum 1, some "unlikeTweet", []⟩ =
      (⟨.jnum 1, false, none, some "Missing 'tweetId' for unlikeTweet"⟩, []) ∧
    processCommand stubOkClient signOk ⟨.jnum 1, some "replyToTweet", []⟩ =
      (⟨.jnum 1, false, none, some "Missing arguments for replyToTweet"⟩, []) ∧
    processCommand stubOkClient signOk ⟨.jnum 1, some "postTweetWithMedia", []⟩ =
      (⟨.jnum 1, false, none, some "Missing arguments for postTweetWithMedia"⟩, []) ∧
    processCommand stubOkClient signOk ⟨.jnum 1, some "get_transaction_id", []⟩ =
      (⟨.jnum 1, false, none,
        some "Missing 'url' or 'method' for get_transaction_id action"⟩, []) ∧
    (processCommand stubOkClient signOk ⟨.jnum 1, some "getTweetById", []⟩).2 =
      [Call.get_tweet_by_id none] ∧
    (processCommand stubOkClient signOk ⟨.jnum 1, some "deleteTweet", []⟩).2 =
      [Call.delete_tweet none] ∧
    (processCommand stubOkClient signOk ⟨.jnum 1, some "searchTweets", []⟩).2 =
      [Call.search_tweet none "Top" "20"] ∧
    (processCommand stubOkClient signOk ⟨.jnum 1, some "getUserInfo", []⟩).2 =
      [Call.get_user_by_screen_name none] ∧
    (processCommand stubOkClient signOk ⟨.jnum 1, some "getLikedTweets", []⟩).2 =
      [Call.get_user_tweets none "Likes" "20"] ∧
    (processCommand stubOkClient signOk ⟨.jnum 1, some "getUserTimeline", []⟩).2 =
      [Call.get_user_tweets none "Tweets" "20"] ∧
    (processCommand stubOkClient signOk ⟨.jnum 1, some "getTweetsByIds", []⟩).2 =
      [Call.get_tweets_by_ids ""] ∧
    (processCommand stubOkClient signOk ⟨.jnum 1, some "getRetweets", []⟩).2 =
      [Call.get_retweeters none "20"] ∧
    (processCommand stubOkClient signOk ⟨.jnum 1, some "retweet", []⟩).2 =
      [Call.sign "POST" (urlPath RETWEET), Call.retweet none] ∧
    (processCommand stubOkClient signOk ⟨.jnum 1, some "undoRetweet", []⟩).2 =
      [Call.sign "POST" (urlPath DELETE_RETWEET), Call.delete_retweet none] ∧
    (processCommand stubOkClient signOk ⟨.jnum 1, some "followUser", []⟩).2.head? =
      some (Call.get_user_by_screen_name none) ∧
    (processCommand stubOkClient signOk ⟨.jnum 1, some "unfollowUser", []⟩).2.head? =
      some (Call.get_user_by_screen_name none) := by
  have H := C9_amended stubOkClient signOk (.jnum 1) []
  exact ⟨H.1 rfl, H.2.1 rfl, H.2.2.1 rfl, H.2.2.2.1 (Or.inl rfl),
    H.2.2.2.2.1 (Or.inl rfl), H.2.2.2.2.2.1 (Or.inl rfl),
    H.2.2.2.2.2.2.1, H.2.2.2.2.2.2.2.1, H.2.2.2.2.2.2.2.2.1,
    H.2.2.2.2.2.2.2.2.2.1, H.2.2.2.2.2.2.2.2.2.2.1,
    H.2.2.2.2.2.2.2.2.2.2.2.1, H.2.2.2.2.2.2.2.2.2.2.2.2.1,
    H.2.2.2.2.2.2.2.2.2.2.2.2.2.1,
    H.2.2.2.2.2.2.2.2.2.2.2.2.2.2.1 ("tok|POST|" ++ urlPath RETWEET) rfl,
    H.2.2.2.2.2.2.2.2.2.2.2.2.2.2.2.1 ("tok|POST|" ++ urlPath DELETE_RETWEET) rfl,
    H.2.2.2.2.2.2.2.2.2.2.2.2.2.2.2.2.1,
    H.2.2.2.2.2.2.2.2.2.2.2.2.2.2.2.2.2⟩

/-- Witness for C5 (amended) at a concrete ct0-less cookie jar. -/
theorem C5_amended_witness :
    xServiceInit [("auth_token", "tok")] =
      .error "Error initializing X client: No 'ct0' token found in cookies. Please log in first." ∧
    bridgeEntersServing [("User-Agent", "ua")] [("auth_token", "tok")] "home" "od" = true ∧
    hget [("User-Agent", "ua"), ("Cookie", "auth_token=tok")] "x-csrf-token" =
      hget [("User-Agent", "ua")] "x-csrf-token" := by
  have H := C5_amended [("auth_token", "tok")] [("User-Agent", "ua")] "home" "od"
    (Or.inl (by decide)) (by decide) (by decide) (by decide) (by decide)
  exact ⟨H.1, H.2.1, H.2.2 [("User-Agent", "ua"), ("Cookie", "auth_token=tok")] rfl⟩
